import Mathlib

/-!
Verification of the OCEANAI QA-agent repository against its specification.

The Python sources are shallowly embedded: strings are `String`/`List Char`,
Python dicts are ordered association lists, exceptions are `Except`/`Option`,
and the external services (Chroma vector store, LLM chain, file system,
`json.loads`) are oracle parameters or explicit state.  Each embedded
definition cites the file and lines of the source it translates.
-/

/- ### Python string primitives -/

/-- Python `str.isspace` on the ASCII whitespace characters that `str.strip()`
removes (space, tab, newline, carriage return, vertical tab, form feed). -/
def pyIsSpace (c : Char) : Bool :=
  c = ' ' || c = '\t' || c = '\n' || c = '\r' || c = '\x0b' || c = '\x0c'

/-- Python `s.strip()`: drop leading and trailing whitespace. -/
def pyStrip (l : List Char) : List Char :=
  ((l.dropWhile pyIsSpace).reverse.dropWhile pyIsSpace).reverse

/-- Python `s.replace("```python", "")`: remove every non-overlapping
occurrence of the 9-character fence, scanning left to right. -/
def stripFencePython : List Char → List Char
  | '`' :: '`' :: '`' :: 'p' :: 'y' :: 't' :: 'h' :: 'o' :: 'n' :: rest =>
      stripFencePython rest
  | c :: rest => c :: stripFencePython rest
  | [] => []

/-- Python `s.replace("```json", "")`: remove every non-overlapping
occurrence of the 7-character fence, scanning left to right. -/
def stripFenceJson : List Char → List Char
  | '`' :: '`' :: '`' :: 'j' :: 's' :: 'o' :: 'n' :: rest =>
      stripFenceJson rest
  | c :: rest => c :: stripFenceJson rest
  | [] => []

/-- Python `s.replace("```", "")`: remove every non-overlapping occurrence
of the triple backtick, scanning left to right. -/
def stripFence : List Char → List Char
  | '`' :: '`' :: '`' :: rest => stripFence rest
  | c :: rest => c :: stripFence rest
  | [] => []

/-- Python `s.find(pat)` restricted to found/not-found: index of the first
occurrence of `pat` as a contiguous sublist, `none` when absent. -/
def findSub (pat : List Char) : List Char → Option Nat
  | [] => if pat.isEmpty then some 0 else none
  | c :: rest =>
      if pat.isPrefixOf (c :: rest) then some 0
      else (findSub pat rest).map (· + 1)

/-- Python `pat in s` (substring containment). -/
def containsSub (pat s : List Char) : Bool :=
  (findSub pat s).isSome

/-- `clean_python_code` (src/agents/helpers.py lines 89-93, identical copy in
src/agent.py lines 93-97): strip markdown fences, drop everything before the
first `"import os"` when present, and strip surrounding whitespace. -/
def clean_python_code (ai_output : String) : String :=
  let code := stripFence (stripFencePython ai_output.data)
  let code :=
    if containsSub ("import os".data) code then
      code.drop ((findSub ("import os".data) code).getD 0)
    else code
  String.mk (pyStrip code)

/-- Python `s.split()` with no argument: split on runs of whitespace and
drop empty pieces.  `acc` is the current token, reversed. -/
def splitWsAux (acc : List Char) : List Char → List (List Char)
  | [] => if acc.isEmpty then [] else [acc.reverse]
  | c :: rest =>
      if pyIsSpace c then
        if acc.isEmpty then splitWsAux [] rest
        else acc.reverse :: splitWsAux [] rest
      else splitWsAux (c :: acc) rest

/-- Python `s.split()`. -/
def splitWs (l : List Char) : List (List Char) :=
  splitWsAux [] l

/-- One left-to-right pass of `re.findall(lit + r'([^"]+)"', s)` (as in the
patterns `id="([^"]+)"` and `class="([^"]+)"`): at each position try the
literal `lit`, then a nonempty greedy run of non-quote characters, then a
closing quote; on success capture the run and resume after the match, on
failure advance one character.  `fuel` bounds the recursion; every call
shrinks the text, so `s.length` fuel is exact. -/
def scanAttrF (lit : List Char) : Nat → List Char → List (List Char)
  | 0, _ => []
  | _ + 1, [] => []
  | fuel + 1, c :: rest =>
      if lit.isPrefixOf (c :: rest) then
        let after := (c :: rest).drop lit.length
        let cap := after.takeWhile (fun ch => ch ≠ '"')
        let rem := after.drop cap.length
        if cap.isEmpty || rem.isEmpty then scanAttrF lit fuel rest
        else cap :: scanAttrF lit fuel (rem.drop 1)
      else scanAttrF lit fuel rest

/-- `re.findall(lit + r'([^"]+)"', haystack)`, for the attribute patterns. -/
def scanAttr (lit : List Char) (s : List Char) : List (List Char) :=
  scanAttrF lit s.length s

/-- One left-to-right pass of `re.findall(lit + r'[^>]*>', s)` (as in the
patterns `<button[^>]*>` / `<input[^>]*>` / `<textarea[^>]*>`): try the
literal `lit`, a possibly empty greedy run of non-`>` characters, then `>`;
on success yield the whole matched text and resume after it. -/
def scanTagF (lit : List Char) : Nat → List Char → List (List Char)
  | 0, _ => []
  | _ + 1, [] => []
  | fuel + 1, c :: rest =>
      if lit.isPrefixOf (c :: rest) then
        let after := (c :: rest).drop lit.length
        let mid := after.takeWhile (fun ch => ch ≠ '>')
        let rem := after.drop mid.length
        if rem.isEmpty then scanTagF lit fuel rest
        else (lit ++ mid ++ ['>']) :: scanTagF lit fuel (rem.drop 1)
      else scanTagF lit fuel rest

/-- `re.findall(lit + r'[^>]*>', haystack)`, for the tag patterns. -/
def scanTag (lit : List Char) (s : List Char) : List (List Char) :=
  scanTagF lit s.length s

/- ### extract_selectors (src/agents/helpers.py lines 95-138; identical copy
in src/agent.py lines 99-142) -/

/-- The line `extract_selectors` emits for one `<button ...>` match
(helpers.py lines 119-124).  `none` models the uncaught `IndexError` raised
by `re.findall(r'class="([^"]+)"', btn)[0].split()[0]` when the tag contains
the substring `class="` but the pattern has no match inside it (for example
`class=""`), or when the matched class value is all whitespace. -/
def buttonLine (btn : List Char) : Option String :=
  if containsSub ("class=\"".data) btn then
    match (scanAttr ("class=\"".data) btn).head? with
    | none => none
    | some cs =>
        match splitWs cs with
        | [] => none
        | t :: _ => some ("BUTTON: ." ++ String.mk t ++ " button")
  else some "BUTTON: <button> (no class)"

/-- `extract_selectors` (helpers.py lines 95-138): pattern-scan the HTML text
for id/class attributes and button/input/textarea tags and emit one line per
finding, groups in source order, joined with newlines.  `none` models the
uncaught `IndexError` of the button branch. -/
def extract_selectors (html : String) : Option String :=
  let h := html.data
  let ids := scanAttr ("id=\"".data) h
  let classes := scanAttr ("class=\"".data) h
  let class_list := (classes.map splitWs).flatten
  let buttons := scanTag ("<button".data) h
  let inputs := scanTag ("<input".data) h
  let textareas := scanTag ("<textarea".data) h
  let idLines := ids.map (fun i => "ID: #" ++ String.mk i)
  let classLines := class_list.map (fun c => "CLASS: ." ++ String.mk c)
  match buttons.mapM buttonLine with
  | none => none
  | some buttonLs =>
      let inputLines := inputs.filterMap
        (fun inp => ((scanAttr ("id=\"".data) inp).head?).map
          (fun i => "INPUT: #" ++ String.mk i))
      let textareaLines := textareas.filterMap
        (fun ta => ((scanAttr ("id=\"".data) ta).head?).map
          (fun i => "TEXTAREA: #" ++ String.mk i))
      some (String.intercalate "\n"
        (idLines ++ classLines ++ buttonLs ++ inputLines ++ textareaLines))

/-- Text of `system_template` (src/agents/selenium_generator.py lines 32-166) before its first `\x7bselector_map\x7d` placeholder. -/
def sysSeg0 : String :=
  "\nYou are a Senior QA Automation Engineer who generates Selenium Python scripts that EXACTLY match the real HTML structure provided. Give only code no extra explaination\nDont hallucinate elements or selectors from HTML code, read every detail and remember and apply the context with only selectors or class names present.\nCheck what will happen if that step is included in final code, and i need code in order dont mix up.\nDont create full process but understand the where to start and where to end based on test case steps dont over do, Create code until i get output not over coding logic.\nYou must read:\n1. The TEST CASE (steps + expected behavior)\n2. The FULL HTML CODE\n3. The EXACT list of VALID SELECTORS extracted from that HTML:  \n"

/-- Text of `system_template` between its first and second placeholder. -/
def sysSeg1 : String :=
  "\n\nYour job is to:\n- Follow do or dont of steps in test cases.\n- Understand the DOM structure\n- Understand the user flow and HTML flow sequence\n- Map test steps to real HTML elements\n- Generate a PERFECT, working Selenium script\n- NO hallucinations, NO missing steps, NO altered selectors\n- Generate only code no extra steps or talks or extra information.\n============" ++ "============" ++ "============" ++ "============" ++ "============" ++ "===\n🔥 STRICT NON-NEGOTIABLE RULES (DO NOT BREAK THESE)\n============" ++ "============" ++ "============" ++ "============" ++ "============" ++ "===\n\n1. **You MUST NOT invent selectors. EVER.**\n   You may ONLY use selectors listed in `"

/-- Text of `system_template` between its second and third placeholder. -/
def sysSeg2 : String :=
  "`.\n   If a required selector is NOT in this list:\n     → STOP and return an error message.\n\n2. **If a test step uses a selector not found in HTML:**\n   - DO NOT guess.\n   - DO NOT create.\n   - FIX it to the closest REAL selector from `"

/-- Text of `system_template` between its third and fourth placeholder. -/
def sysSeg3 : String :=
  "` ONLY IF that selector represents the same element.\n   - If no match exists → STOP and output an error.\n\n3. **Selector Format Rules (MANDATORY):**\n   - Valid:\n       By.ID(\"id_here\")\n       By.CLASS_NAME(\"class_here\")\n       By.CSS_SELECTOR(\"parent child\")\n       By.CSS_SELECTOR(\".class button\")\n       By.CSS_SELECTOR(\"#id .child\")\n   - INVALID (never output):\n       \"#id.class\"\n       \".class1.class2\"\n       Any selector not found in "

/-- Text of `system_template` after the fourth placeholder, up to the hidden-cart rule line (the fixed text of rule 5). -/
def sysSeg4a : String :=
  "\n\n4. **You must understand the HTML flow from the code:**\n   - `.product-card button` adds an item to the cart.\n   - `#cart-summary` is HIDDEN until an item is added.\n   - Discount area exists INSIDE the hidden cart.\n   - Form exists on the right column.\n   - Shipping radio options exist with updateShipping().\n   - “Pay Now” submits the checkout.\n\n5. **HTML HIDDEN LOGIC RULE (CRITICAL):**\n   "

/-- The visibility-dependency prerequisite stated by rule 5 of `system_template` (selenium_generator.py line 87): a hardcoded literal of the template, not computed from the HTML. -/
def visibilityDependencyText : String :=
  "#cart-summary is hidden until at least ONE product is added."

/-- Text of `system_template` after the hidden-cart rule line, up to the fifth placeholder. -/
def sysSeg4b : String :=
  "\n   Therefore, ANY test involving:\n       - discount application\n       - subtotal\n       - total price\n       - shipping cost\n       - checkout form submission\n   MUST begin with:\n       click first \".product-card button\"\n       wait until \"#cart-summary\" becomes visible\n\n6. **Flow Control Requirements:**\n   - You MUST wait for elements properly using WebDriverWait.\n   - You MUST fill form fields ONLY if test case requires submission.\n   - You MUST NOT add steps that test case does not require.\n   - You MUST execute steps in STRICT chronological order from the test case.\n\n7. **Stability Rules:**\n   - Add `time.sleep(1)` between high-level actions.\n   - Use CSS selectors EXACTLY as provided.\n   - Never shorten or rename IDs/classes.\n\n8. **MANDATORY JAVASCRIPT ALERT HANDLING (CRITICAL RULE):**\n   The provided HTML triggers alerts in these situations:\n     - Applying “OCEAN20”\n     - Applying “SAVE15”\n     - Applying any invalid discount code\n     - Submitting the form with an empty cart\n\n   Therefore you MUST:\n     - ALWAYS call `handle_alert(driver)` immediately AFTER clicking `.discount-group button`\n     - NEVER perform Selenium clicks or typing while an alert is open\n     - Detect and dismiss alerts using the provided handler\n     - If alert appears unexpectedly → STOP and raise:\n           ERROR: Unexpected alert — test flow blocked.\n     - After ANY step that triggers alerts, always call:\n           handle_alert(driver)\n           time.sleep(1)\n     - For Negative Tests (e.g., 'Verify Empty', 'Verify Not Visible'): DO NOT use the standard 10-second wait. You MUST use verify_element_not_visible(driver, selector, timeout=2) to avoid waiting unnecessarily.\n\n============" ++ "============" ++ "============" ++ "============" ++ "============" ++ "===\n🔥 VALID SELECTORS FROM ACTUAL HTML (DO NOT USE ANYTHING OUTSIDE THIS)\n============" ++ "============" ++ "============" ++ "============" ++ "============" ++ "===\n"

/-- Text of `system_template` after its fifth (last) placeholder. -/
def sysSeg5 : String :=
  "\n\n============" ++ "============" ++ "============" ++ "============" ++ "============" ++ "===\n🔥 KNOWN SEMANTIC ROLE OF IMPORTANT SELECTORS (DO NOT MISINTERPRET)\n============" ++ "============" ++ "============" ++ "============" ++ "============" ++ "===\n- \".product-card button\" → Adds product to cart (triggers visibility of #cart-summary)\n- \"#cart-summary\" → Hidden cart container, visible after adding a product\n- \"#discount-code\" → User enters discount code here\n- \".discount-group button\" → Apply Discount button\n- \"#subtotal\" → Displays subtotal BEFORE discount\n- \"#discount-amount\" → Displays discounted amount\n- \"#shipping-cost\" → Displays shipping\n- \"#total-price\" → Displays final computed price\n- \"#checkout-form\" → Checkout form wrapper\n- \"#fullname\", \"#email\", \"#address\" → Form input fields\n- \".pay-btn\" → Final submission button inside checkout-form\n\n============" ++ "============" ++ "============" ++ "============" ++ "============" ++ "===\n🔥 OUTPUT FORMAT RULES (NO EXCEPTIONS)\n============" ++ "============" ++ "============" ++ "============" ++ "============" ++ "===\n- Output **ONLY** the full Python script\n- No explanation\n- No markdown (NO ```python)\n- The script MUST strictly follow the template provided in the user message\n- The block “# --- GENERATED LOGIC STARTS HERE ---” must contain ONLY working Selenium actions\n\nIf any required HTML element **does not exist** according to selector_map → output:\n\n    ERROR: Missing required HTML element \"<selector_name>\"\n\nNo further output.\n\n============" ++ "============" ++ "============" ++ "============" ++ "============" ++ "===\nEND OF SYSTEM INSTRUCTIONS — NOW FOLLOW THE USER TEMPLATE\n============" ++ "============" ++ "============" ++ "============" ++ "============" ++ "===\n\n"

/-- The system prompt `generate_selenium_script` renders from
`system_template` for a given selector map: LangChain's
`SystemMessagePromptTemplate.from_template` substitutes the string built by
`extract_selectors` for each of the five `\x7bselector_map\x7d` placeholders
(src/agents/selenium_generator.py lines 32-166 and 262-267); every other
character of the prompt is fixed template text. -/
def promptOfSelectorMap (sm : String) : String :=
  sysSeg0 ++ sm ++ sysSeg1 ++ sm ++ sysSeg2 ++ sm ++ sysSeg3 ++ sm ++
    (sysSeg4a ++ visibilityDependencyText ++ sysSeg4b) ++ sm ++ sysSeg5

/-- The system prompt as a function of the stored HTML content: the only part
of `system_template`'s rendering that depends on the HTML is the selector map
`extract_selectors(html_content)` (selenium_generator.py lines 17-18, 277).
`none` models the `IndexError` that `extract_selectors` can raise. -/
def buildSystemPrompt (html : String) : Option String :=
  (extract_selectors html).map promptOfSelectorMap

/-- Exceptions the embedded fragments of the agent can raise. -/
inductive PyErr where
  | typeError
  | indexError
deriving DecidableEq

/-- `extract_selectors(html_content)` where `html_content` came from
`get_stored_html_details` and may be `None` (selenium_generator.py lines
17-18): `re.findall(pattern, None)` raises `TypeError`, and the button branch
of `extract_selectors` can raise `IndexError`. -/
def extractSelectorsOfStored (content : Option String) : Except PyErr String :=
  match content with
  | none => .error .typeError
  | some h =>
      match extract_selectors h with
      | none => .error .indexError
      | some sm => .ok sm

/-- Python truthiness of an optional string (`if not html_content`):
falsy when `None` or empty. -/
def strTruthy (o : Option String) : Bool :=
  match o with
  | none => false
  | some s => !s.isEmpty

/-- `generate_selenium_script` (src/agents/selenium_generator.py lines
16-281; the copy in src/agent.py lines 241-499 has the same structure).
`details` is the `(html_path, html_filename, html_content)` triple returned
by `get_stored_html_details`; `chainO` is an oracle for
`(prompt | llm | StrOutputParser).invoke`, receiving the rendered system
prompt together with the raw template variables (html code, filename, test
case) of the human message, and failing when the chain raises.  The Chroma
retrieval of lines 23-29 is wrapped in a bare `try/except` and its
`context_text` is never used afterwards, so it is omitted here.  The final
`try/except` around the chain turns chain errors into an `# Error:` string
(lines 269-281). -/
def generate_selenium_script
    (chainO : String → Option String → Option String → List (String × String) →
      Except String String)
    (details : Option String × Option String × Option String)
    (tc : List (String × String)) : Except PyErr String :=
  let (_, html_filename, html_content) := details
  match extractSelectorsOfStored html_content with
  | .error e => .error e
  | .ok selector_map =>
      if strTruthy html_content = false then .ok "# No HTML found."
      else
        match chainO (promptOfSelectorMap selector_map) html_content html_filename tc with
        | .ok raw => .ok (clean_python_code raw)
        | .error e => .ok ("# Error: " ++ e)

/- ### clean_and_parse_json (src/agents/helpers.py lines 73-87; identical
copy in src/agent.py lines 77-91) -/

/-- Python values produced by `json.loads` plus the error dicts the helpers
build. -/
inductive PyJson where
  | null
  | bool (b : Bool)
  | num (n : Int)
  | str (s : String)
  | arr (xs : List PyJson)
  | obj (kvs : List (String × PyJson))

/-- Python `s.find(c)` for a single character: first index, `-1` if absent. -/
def pyFindChar (l : List Char) (c : Char) : Int :=
  match l.findIdx? (· = c) with
  | some i => (i : Int)
  | none => -1

/-- Python `s.rfind(c)` for a single character: last index, `-1` if absent. -/
def pyRFindChar (l : List Char) (c : Char) : Int :=
  match l.reverse.findIdx? (· = c) with
  | some i => (l.length : Int) - 1 - (i : Int)
  | none => -1

/-- Python `s[a:b]` for non-negative bounds: characters from index `a` up to
(excluding) index `b`, clamped. -/
def pySlice (l : List Char) (a b : Int) : List Char :=
  (l.take b.toNat).drop a.toNat

/-- One pass of `re.sub(r'\\(?![\\/\"bfnrtu])', '/', s)` (helpers.py line
84): replace each backslash whose next character is not one of
`\\ / \" b f n r t u` (or which ends the text) by `/`, scanning one character
at a time. -/
def fixEscapes : List Char → List Char
  | [] => []
  | ['\\'] => ['/']
  | '\\' :: c :: rest =>
      if c = '\\' || c = '/' || c = '"' || c = 'b' || c = 'f' || c = 'n' ||
          c = 'r' || c = 't' || c = 'u' then
        '\\' :: fixEscapes (c :: rest)
      else '/' :: fixEscapes (c :: rest)
  | c :: rest => c :: fixEscapes rest

/-- The fence-stripped text `clean_and_parse_json` scans (helpers.py line
75): `ai_output.replace("```json", "").replace("```", "")`. -/
def fenceStrippedJson (s : String) : List Char :=
  stripFence (stripFenceJson s.data)

/-- The `\x7b"error": "No JSON found"\x7d` dict (helpers.py line 82). -/
def errNoJson : PyJson :=
  .obj [("error", .str "No JSON found")]

/-- The `\x7b"error": ..., "raw": ...\x7d` dict (helpers.py line 87). -/
def errParseRaw (raw : String) : PyJson :=
  .obj [("error", .str "JSON parse error"), ("raw", .str raw)]

/-- `clean_and_parse_json` (helpers.py lines 73-87), with `json.loads`
abstracted as the total function `parse` (returning `.error` where
`json.loads` raises): strip markdown fences, slice from the first `[` to the
last `]` (falling back to `\x7b`/`\x7d` when no `[` exists), repair invalid
backslash escapes, and parse; the surrounding `try/except` turns a parse
failure into an error dict carrying the raw output. -/
def clean_and_parse_json (parse : String → Except String PyJson)
    (ai_output : String) : PyJson :=
  let text := fenceStrippedJson ai_output
  let start := pyFindChar text '['
  let stop := pyRFindChar text ']' + 1
  let startStop :=
    if start = -1 then (pyFindChar text '{', pyRFindChar text '}' + 1)
    else (start, stop)
  if startStop.1 = -1 || startStop.2 = 0 then errNoJson
  else
    let json_str := pySlice text startStop.1 startStop.2
    match parse (String.mk (fixEscapes json_str)) with
    | .ok v => v
    | .error _ => errParseRaw ai_output

/- ### A model of Python json.loads, used to instantiate the parse oracle -/

/-- Whitespace skipped by `json.loads`. -/
def jsonWs (c : Char) : Bool :=
  c = ' ' || c = '\t' || c = '\n' || c = '\r'

/-- Hex digit value for `\uXXXX` escapes. -/
def hexVal (c : Char) : Option Nat :=
  if '0' ≤ c ∧ c ≤ '9' then some (c.toNat - '0'.toNat)
  else if 'a' ≤ c ∧ c ≤ 'f' then some (c.toNat - 'a'.toNat + 10)
  else if 'A' ≤ c ∧ c ≤ 'F' then some (c.toNat - 'A'.toNat + 10)
  else none

/-- Parse the body of a JSON string literal (after the opening quote):
standard escapes only, an invalid escape such as `\z` is an error, as in
`json.loads`. -/
def jsonStr (fuel : Nat) (acc : List Char) (l : List Char) :
    Except String (String × List Char) :=
  match fuel, l with
  | 0, _ => .error "fuel"
  | _ + 1, [] => .error "Unterminated string"
  | fuel + 1, c :: rest =>
      if c = '"' then .ok (String.mk acc.reverse, rest)
      else if c = '\\' then
        match rest with
        | [] => .error "Unterminated string"
        | e :: rest2 =>
            if e = '"' then jsonStr fuel ('"' :: acc) rest2
            else if e = '\\' then jsonStr fuel ('\\' :: acc) rest2
            else if e = '/' then jsonStr fuel ('/' :: acc) rest2
            else if e = 'b' then jsonStr fuel ('\x08' :: acc) rest2
            else if e = 'f' then jsonStr fuel ('\x0c' :: acc) rest2
            else if e = 'n' then jsonStr fuel ('\n' :: acc) rest2
            else if e = 'r' then jsonStr fuel ('\r' :: acc) rest2
            else if e = 't' then jsonStr fuel ('\t' :: acc) rest2
            else if e = 'u' then
              match rest2 with
              | a :: b :: c' :: d :: rest3 =>
                  match hexVal a, hexVal b, hexVal c', hexVal d with
                  | some x, some y, some z, some w =>
                      jsonStr fuel (Char.ofNat (((x * 16 + y) * 16 + z) * 16 + w) :: acc) rest3
                  | _, _, _, _ => .error "Invalid \\uXXXX escape"
              | _ => .error "Invalid \\uXXXX escape"
            else .error "Invalid \\escape"
      else if c.toNat < 32 then .error "Invalid control character"
      else jsonStr fuel (c :: acc) rest

/-- Parse a run of decimal digits. -/
def jsonDigits (acc : Int) : List Char → Int × List Char
  | c :: rest =>
      if '0' ≤ c ∧ c ≤ '9' then jsonDigits (acc * 10 + (c.toNat - '0'.toNat : Nat)) rest
      else (acc, c :: rest)
  | [] => (acc, [])

mutual

/-- Parse one JSON value (integer numbers only: this model of `json.loads`
covers the grammar the theorems below evaluate it on). -/
def jsonVal (fuel : Nat) (l : List Char) : Except String (PyJson × List Char) :=
  match fuel with
  | 0 => .error "fuel"
  | fuel + 1 =>
      match l.dropWhile jsonWs with
      | [] => .error "Expecting value"
      | c :: rest =>
          if c = 'n' then
            match rest with
            | 'u' :: 'l' :: 'l' :: r => .ok (.null, r)
            | _ => .error "Expecting value"
          else if c = 't' then
            match rest with
            | 'r' :: 'u' :: 'e' :: r => .ok (.bool true, r)
            | _ => .error "Expecting value"
          else if c = 'f' then
            match rest with
            | 'a' :: 'l' :: 's' :: 'e' :: r => .ok (.bool false, r)
            | _ => .error "Expecting value"
          else if c = '"' then
            match jsonStr fuel [] rest with
            | .ok (s, r) => .ok (.str s, r)
            | .error e => .error e
          else if c = '[' then jsonArr fuel [] (c :: rest).tail
          else if c = '{' then jsonObj fuel [] rest
          else if c = '-' then
            match rest with
            | d :: _ =>
                if '0' ≤ d ∧ d ≤ '9' then
                  match jsonDigits 0 rest with
                  | (n, r) => .ok (.num (-n), r)
                else .error "Expecting value"
            | [] => .error "Expecting value"
          else if '0' ≤ c ∧ c ≤ '9' then
            match jsonDigits 0 (c :: rest) with
            | (n, r) => .ok (.num n, r)
          else .error "Expecting value"

/-- Parse the elements of a JSON array after `[`. -/
def jsonArr (fuel : Nat) (acc : List PyJson) (l : List Char) :
    Except String (PyJson × List Char) :=
  match fuel with
  | 0 => .error "fuel"
  | fuel + 1 =>
      match l.dropWhile jsonWs with
      | ']' :: r =>
          if acc.isEmpty then .ok (.arr [], r) else .error "Expecting value"
      | l' =>
          match jsonVal fuel l' with
          | .error e => .error e
          | .ok (v, r) =>
              match r.dropWhile jsonWs with
              | ',' :: r2 => jsonArr fuel (v :: acc) r2
              | ']' :: r2 => .ok (.arr (v :: acc).reverse, r2)
              | _ => .error "Expecting delimiter"

/-- Parse the members of a JSON object after an opening brace. -/
def jsonObj (fuel : Nat) (acc : List (String × PyJson)) (l : List Char) :
    Except String (PyJson × List Char) :=
  match fuel with
  | 0 => .error "fuel"
  | fuel + 1 =>
      match l.dropWhile jsonWs with
      | '}' :: r =>
          if acc.isEmpty then .ok (.obj [], r) else .error "Expecting property name"
      | '"' :: r =>
          match jsonStr fuel [] r with
          | .error e => .error e
          | .ok (k, r2) =>
              match r2.dropWhile jsonWs with
              | ':' :: r3 =>
                  match jsonVal fuel r3 with
                  | .error e => .error e
                  | .ok (v, r4) =>
                      match r4.dropWhile jsonWs with
                      | ',' :: r5 => jsonObj fuel ((k, v) :: acc) r5
                      | '}' :: r5 => .ok (.obj ((k, v) :: acc).reverse, r5)
                      | _ => .error "Expecting delimiter"
              | _ => .error "Expecting colon"
      | _ => .error "Expecting property name"

end

/-- Model of Python `json.loads`: parse one value, then require only
whitespace to follow. -/
def json_loads_model (s : String) : Except String PyJson :=
  match jsonVal (s.length + 1) s.data with
  | .error e => .error e
  | .ok (v, r) =>
      if (r.dropWhile jsonWs).isEmpty then .ok v else .error "Extra data"


/- ### generate_test_cases (src/agents/test_case.py lines 10-104; identical
structure in src/agent.py lines 145-239) -/

/-- A LangChain `Document` as the agents read it: `page_content` text and a
metadata dict. -/
structure RagDoc where
  page_content : String
  metadata : List (String × String)

/-- Python `d.get(k)` on an ordered dict modelled as an association list. -/
def pyDictGet {α : Type} (d : List (String × α)) (k : String) : Option α :=
  (d.find? (fun kv => kv.1 = k)).map (·.2)

/-- `generate_test_cases` (test_case.py lines 10-104).  The vector store and
LLM are oracles: `load_chroma` fails where loading the Chroma database
raises (the bare `except` of lines 11-14 catches any such error),
`similarity_search` and `chainInvoke` fail where the search or the prompt |
llm | parser chain raise (those calls are not wrapped, so their errors
propagate).  `chainInvoke` receives the two variables of the prompt
template, `context_text` and `query`. -/
def generate_test_cases {DB : Type}
    (load_chroma : String → Except String DB)
    (similarity_search : DB → String → Nat → Except String (List RagDoc))
    (chainInvoke : String → String → Except String String)
    (parse : String → Except String PyJson)
    (db_id query : String) : Except String PyJson :=
  match load_chroma db_id with
  | .error _ => .ok (.obj [("error", .str "DB not found")])
  | .ok db =>
      match similarity_search db query 6 with
      | .error e => .error e
      | .ok results =>
          let context_text := String.intercalate "\n\n"
            (results.map (fun d =>
              "Source: " ++ ((pyDictGet d.metadata "source").getD "Unknown") ++
                "\nContent: " ++ d.page_content))
          match chainInvoke context_text query with
          | .error e => .error e
          | .ok raw => .ok (clean_and_parse_json parse raw)

/- ### The projects.json registry (src/main.py lines 46-87) -/

/-- A registry entry: a Python dict with string values, as an ordered
association list. -/
abbrev Entry := List (String × String)

/-- The projects.json index: `db_id → entry`, an ordered Python dict. -/
abbrev Registry := List (String × Entry)

/-- Python `d[k] = v` on an ordered dict: overwrite in place when the key
exists, else append. -/
def pyDictSet {α : Type} (d : List (String × α)) (k : String) (v : α) :
    List (String × α) :=
  if d.any (fun kv => kv.1 = k) then
    d.map (fun kv => if kv.1 = k then (k, v) else kv)
  else d ++ [(k, v)]

/-- Python `d.update(e)` on ordered dicts. -/
def pyDictUpdate (d e : List (String × String)) : List (String × String) :=
  e.foldl (fun acc kv => pyDictSet acc kv.1 kv.2) d

/-- `index[db_id] = entry` at the registry level. -/
def regSet (reg : Registry) (k : String) (v : Entry) : Registry :=
  pyDictSet reg k v

/-- `index.get(db_id)` at the registry level (also `get_db_entry`,
src/main.py lines 78-80). -/
def regGet (reg : Registry) (k : String) : Option Entry :=
  pyDictGet reg k

/-- `register_db_entry` (src/main.py lines 59-72): mint
`"db_" + uuid.uuid4().hex[:12]`, build the entry, apply the optional `extra`
dict with Python's `entry.update(extra)` (skipped when `extra` is `None` or
empty, the falsy cases of `if extra:`), and store it in the index.
`uuidHex` stands for `uuid.uuid4().hex` and `now` for
`datetime.utcnow().isoformat()`. -/
def register_db_entry (reg : Registry) (display_name persist_dir : String)
    (extra : Option (List (String × String))) (uuidHex now : String) :
    Registry × Entry :=
  let db_id := "db_" ++ String.mk (uuidHex.data.take 12)
  let entry : Entry :=
    [("id", db_id), ("name", display_name), ("persist_dir", persist_dir),
     ("created_at", now ++ "Z")]
  let entry :=
    match extra with
    | none => entry
    | some ex => if ex.isEmpty then entry else pyDictUpdate entry ex
  (regSet reg db_id entry, entry)

/-- `delete_db_entry` (src/main.py lines 82-87): `index.pop(db_id, None)`;
the index file is rewritten only when an entry was present (when nothing was
popped the mapping is unchanged either way). -/
def delete_db_entry (reg : Registry) (db_id : String) :
    Option Entry × Registry :=
  match regGet reg db_id with
  | none => (none, reg)
  | some e => (some e, reg.filter (fun kv => kv.1 ≠ db_id))

/-- The sort key of `list_db_entries`: `x["created_at"]` (a `KeyError` in
Python when the field is missing; the registry invariant below guarantees it
is present wherever the theorems use this default). -/
def createdAt (e : Entry) : String :=
  (pyDictGet e "created_at").getD ""

/-- `list_db_entries` (src/main.py lines 74-76):
`sorted(index.values(), key=lambda x: x["created_at"], reverse=True)` —
a stable sort, descending on the key, over the values in insertion order. -/
def list_db_entries (reg : Registry) : List Entry :=
  (reg.map Prod.snd).mergeSort (fun a b => decide (createdAt b ≤ createdAt a))

/-- Does the entry carry the field? -/
def entryHas (e : Entry) (k : String) : Bool :=
  (pyDictGet e k).isSome

/-- The registry invariant of the claim: each key maps to an entry whose
`id` field is that key and which carries `name`, `persist_dir` and
`created_at`; keys are unique (a Python dict). -/
def registryInv (reg : Registry) : Bool :=
  decide (reg.map Prod.fst).Nodup &&
    reg.all (fun kv =>
      (pyDictGet kv.2 "id" == some kv.1) && entryHas kv.2 "name" &&
        entryHas kv.2 "persist_dir" && entryHas kv.2 "created_at")

/- ### File storage and the /ingest endpoint (src/main.py lines 92-100,
166-234) -/

/-- The files on disk that the endpoints touch: paths under `stored_files`
and under `temp_data`. -/
structure FileSys where
  stored : List String
  temp : List String
deriving DecidableEq

/-- `save_file` (src/main.py lines 92-100): write the upload under a fresh
name `f"\x7bts\x7d_\x7buuid8\x7d_\x7bfile.filename\x7d"` — `uniq` stands for the
timestamp-and-uuid part — into `stored_files` when `persist` else
`temp_data`, and return the path. -/
def save_file (fs : FileSys) (uniq origName : String) (persist : Bool) :
    FileSys × String :=
  let folder := if persist then "stored_files" else "temp_data"
  let path := folder ++ "/" ++ uniq ++ "_" ++ origName
  (if persist then { fs with stored := path :: fs.stored }
   else { fs with temp := path :: fs.temp }, path)

/-- `os.remove(path)` guarded by `os.path.exists` (src/main.py lines
230-232): afterwards no file at `path` exists. -/
def removePath (fs : FileSys) (p : String) : FileSys :=
  { stored := fs.stored.filter (fun q => q ≠ p),
    temp := fs.temp.filter (fun q => q ≠ p) }

/-- How the ingest pipeline body behaves after the uploads are saved:
`load_documents` extracted nothing (the `HTTPException(400)` of main.py line
188), the splitter/Chroma/registration raised (caught at line 224 and
re-raised as a 500), or everything succeeded with some number of chunks. -/
inductive IngestOutcome where
  | emptyDocs
  | serverError (e : String)
  | ok (chunks : Nat)

/-- One iteration of the support-upload loop of /ingest (main.py lines
178-179): save the indexed upload to `temp_data` and record its path. -/
def ingestSaveStep (fresh : Nat → String) (acc : FileSys × List String)
    (p : Nat × String) : FileSys × List String :=
  let r := save_file acc.1 (fresh p.1) p.2 false
  (r.1, acc.2 ++ [r.2])

/-- `ingest_knowledge_base` (src/main.py lines 166-234).  Support uploads
are saved to `temp_data` in order (line 178-179, unique-name part
`fresh 0, fresh 1, ...`), the HTML upload to `stored_files` (line 182,
unique-name part `fresh supportNames.length`); the pipeline outcome is the
`outcome` parameter; on success the new Chroma folder `persistDir` (made by
`generate_chroma_path`) is registered via `register_db_entry` with
`extra = \x7b"source_html": basename(html_path)\x7d`; and the `finally` block
(lines 227-234) removes exactly the saved temp paths, in every branch.
The file saves themselves are modelled as always succeeding; the `outcome`
parameter covers the failure modes of the pipeline body (lines 184-226).
The result is `(response-or-HTTP-error, final files, final registry)`. -/
def ingest_knowledge_base (fs₀ : FileSys) (reg : Registry)
    (supportNames : List String) (htmlName : String) (fresh : Nat → String)
    (outcome : IngestOutcome) (persistDir uuidHex now : String) :
    Except (Nat × String) (String × Nat) × FileSys × Registry :=
  let fsTemps := (supportNames.enum).foldl (ingestSaveStep fresh) (fs₀, [])
  let fs₁ := fsTemps.1
  let temp_paths := fsTemps.2
  let saved := save_file fs₁ (fresh supportNames.length) htmlName true
  let fs₂ := saved.1
  let step :=
    match outcome with
    | .emptyDocs =>
        (Except.error (400, "No content extracted from uploaded files."), fs₂, reg)
    | .serverError e => (Except.error (500, e), fs₂, reg)
    | .ok chunks =>
        let r := register_db_entry reg ("Ingest " ++ now) persistDir
          (some [("source_html", fresh supportNames.length ++ "_" ++ htmlName)])
          uuidHex now
        (Except.ok ((pyDictGet r.2 "id").getD "", chunks), fs₂, r.1)
  let fs₃ := temp_paths.foldl removePath step.2.1
  (step.1, fs₃, step.2.2)

/- ### The /query endpoint (src/main.py lines 264-300) -/

/-- How a request to /query or /databases/\x7bdb_id\x7d can fail: an
`HTTPException(code, detail)`, or an uncaught Python error (the `KeyError`
of `entry["persist_dir"]`, possible only for registries that break the
registry invariant). -/
inductive QFail where
  | http (code : Nat) (detail : String)
  | keyError (field : String)
deriving DecidableEq

/-- A LangChain result object as /query reads it with `getattr`:
`page_content` / `content` may be absent (`None`), `str(r)` always exists,
`metadata` may be absent. -/
structure PyDoc where
  page_content : Option String
  content : Option String
  strRepr : String
  metadata : Option (List (String × String))
deriving DecidableEq

/-- `getattr(r, "page_content", None) or getattr(r, "content", None) or
str(r)` (main.py line 287): first truthy (non-`None`, nonempty) wins. -/
def docText (r : PyDoc) : String :=
  if strTruthy r.page_content then r.page_content.getD ""
  else if strTruthy r.content then r.content.getD ""
  else r.strRepr

/-- `meta = getattr(r, "metadata", \x7b\x7d) or \x7b\x7d; src = meta.get("source")`
(main.py lines 289-290). -/
def docSource (r : PyDoc) : Option String :=
  pyDictGet (r.metadata.getD []) "source"

/-- One output line of /query (main.py lines 291-294): prefix `[src] ` when
the source metadata is truthy. -/
def renderResult (r : PyDoc) : String :=
  if strTruthy (docSource r) then
    "[" ++ (docSource r).getD "" ++ "] " ++ docText r
  else docText r

/-- `req.top_k or 5` (main.py line 282): `top_k` is `Optional[int] = 5`, so
`None` (or an explicit falsy 0) falls back to 5. -/
def effTopK (top_k : Option Int) : Int :=
  match top_k with
  | none => 5
  | some v => if v = 0 then 5 else v

/-- `query_database` (src/main.py lines 264-300).  `dirExists` is
`os.path.exists`; `search` is the oracle for recreating the Chroma
vectorstore on `persist_dir` and running `similarity_search(query, k)`, and
fails where those raise — the `except` of lines 298-300 turns that into an
`HTTPException(500)`. -/
def query_database (reg : Registry) (dirExists : String → Bool)
    (search : String → String → Int → Except String (List PyDoc))
    (db_id query : String) (top_k : Option Int) :
    Except QFail (List String) :=
  match regGet reg db_id with
  | none => .error (.http 404 "DB not found")
  | some entry =>
      if entry.isEmpty then .error (.http 404 "DB not found")
      else
        match pyDictGet entry "persist_dir" with
        | none => .error (.keyError "persist_dir")
        | some persist_dir =>
            if dirExists persist_dir then
              match search persist_dir query (effTopK top_k) with
              | .error e => .error (.http 500 e)
              | .ok results => .ok (results.map renderResult)
            else .error (.http 404 "DB persist directory not found on disk")

/- ### The DELETE /databases/\x7bdb_id\x7d endpoint (src/main.py lines
242-262) -/

/-- `delete_database` (src/main.py lines 242-262).  `dirs` is the set of
folders on disk; `rmtreeFails` tells whether `shutil.rmtree(persist_dir)`
raises (consulted only when the folder exists, since the call is guarded by
`os.path.exists`); on a rmtree error the handler raises
`HTTPException(500)` before `delete_db_entry` runs, so the registry entry
stays; otherwise the entry is removed after the folder. -/
def delete_database (reg : Registry) (dirs : List String)
    (rmtreeFails : Bool) (db_id : String) :
    Except QFail String × Registry × List String :=
  match regGet reg db_id with
  | none => (.error (.http 404 "DB not found"), reg, dirs)
  | some entry =>
      if entry.isEmpty then (.error (.http 404 "DB not found"), reg, dirs)
      else
        match pyDictGet entry "persist_dir" with
        | none => (.error (.keyError "persist_dir"), reg, dirs)
        | some persist_dir =>
            if dirs.contains persist_dir then
              if rmtreeFails then
                (.error (.http 500 "Failed to delete DB folder"), reg, dirs)
              else
                (.ok ("Deleted DB " ++ db_id ++ " and folder " ++ persist_dir),
                  (delete_db_entry reg db_id).2,
                  dirs.filter (fun d => d ≠ persist_dir))
            else
              (.ok ("Deleted DB " ++ db_id ++ " and folder " ++ persist_dir),
                (delete_db_entry reg db_id).2, dirs)

/- ### Bridge lemmas: the Python string primitives against list predicates -/

theorem findSub_isSome_iff (pat : List Char) :
    ∀ l : List Char, (findSub pat l).isSome = true ↔ pat <:+: l := by
  intro l
  induction l with
  | nil =>
      simp only [findSub, List.isEmpty_iff]
      constructor
      · intro h
        split at h
        · subst pat; exact List.infix_rfl
        · simp at h
      · intro h
        have : pat = [] := List.eq_nil_of_infix_nil h
        simp [this]
  | cons c rest ih =>
      simp only [findSub]
      constructor
      · intro h
        by_cases hp : pat.isPrefixOf (c :: rest)
        · exact (List.isPrefixOf_iff_prefix.mp hp).isInfix
        · simp only [hp, if_neg, Bool.false_eq_true, Option.isSome_map] at h
          exact (List.infix_cons_iff).mpr (Or.inr (ih.mp (by simpa using h)))
      · intro h
        by_cases hp : pat.isPrefixOf (c :: rest)
        · simp [hp]
        · rcases List.infix_cons_iff.mp h with h1 | h2
          · exact absurd (List.isPrefixOf_iff_prefix.mpr h1) hp
          · simp only [hp, if_neg, Bool.false_eq_true, Option.isSome_map]
            simpa using ih.mpr h2

theorem containsSub_iff (pat l : List Char) :
    containsSub pat l = true ↔ pat <:+: l := by
  simp [containsSub, findSub_isSome_iff]

theorem findSub_drop (pat : List Char) :
    ∀ l i, findSub pat l = some i → pat <+: l.drop i := by
  intro l
  induction l with
  | nil =>
      intro i h
      simp only [findSub] at h
      split at h
      · rename_i he
        simp only [Option.some.injEq] at h
        subst h
        simp [List.isEmpty_iff] at he
        simp [he]
      · simp at h
  | cons c rest ih =>
      intro i h
      simp only [findSub] at h
      split at h
      · rename_i hp
        simp only [Option.some.injEq] at h
        subst h
        simpa using List.isPrefixOf_iff_prefix.mp hp
      · simp only [Option.map_eq_some'] at h
        obtain ⟨j, hj, rfl⟩ := h
        simpa using ih j hj

theorem findSub_eq_zero (pat : List Char) (l : List Char) (h : pat <+: l) :
    findSub pat l = some 0 := by
  cases l with
  | nil =>
      have : pat = [] := List.prefix_nil.mp h
      simp [findSub, this]
  | cons c rest =>
      simp [findSub, List.isPrefixOf_iff_prefix.mpr h]

theorem pyStrip_within (l : List Char) : pyStrip l <:+: l := by
  unfold pyStrip
  have h1 : (l.dropWhile pyIsSpace) <:+ l := List.dropWhile_suffix pyIsSpace
  have h2 : ((l.dropWhile pyIsSpace).reverse.dropWhile pyIsSpace) <:+
      (l.dropWhile pyIsSpace).reverse := List.dropWhile_suffix pyIsSpace
  have h3 := h2.reverse
  simp only [List.reverse_reverse] at h3
  exact h3.isInfix.trans h1.isInfix

theorem dropWhile_dropWhile_self (p : Char → Bool) (l : List Char) :
    (l.dropWhile p).dropWhile p = l.dropWhile p := by
  cases h : l.dropWhile p with
  | nil => simp
  | cons c rest =>
      have hc : p c = false := by
        have := List.head_dropWhile_not p l (by simp [h])
        simpa [h] using this
      simp [List.dropWhile_cons, hc]

theorem dropWhile_eq_self_cons (p : Char → Bool) (c : Char) (rest : List Char)
    (h : (c :: rest).dropWhile p = c :: rest) : p c = false := by
  have := List.dropWhile_eq_self_iff.mp h (by simp)
  simpa using this

theorem pyStrip_idem (l : List Char) : pyStrip (pyStrip l) = pyStrip l := by
  have lstrip_y : (l.dropWhile pyIsSpace).dropWhile pyIsSpace = l.dropWhile pyIsSpace :=
    dropWhile_dropWhile_self pyIsSpace l
  -- the stripped list: z
  have hzpre : pyStrip l <+: l.dropWhile pyIsSpace := by
    unfold pyStrip
    have h2 := (List.dropWhile_suffix (l := (l.dropWhile pyIsSpace).reverse) pyIsSpace).reverse
    simpa using h2
  -- left strip of z is a no-op
  have hzl : (pyStrip l).dropWhile pyIsSpace = pyStrip l := by
    cases hz : pyStrip l with
    | nil => simp
    | cons a zs =>
        rw [hz] at hzpre
        rcases hzpre with ⟨t, ht⟩
        have hy : l.dropWhile pyIsSpace = a :: (zs ++ t) := by
          rw [← ht]; simp
        have ha : pyIsSpace a = false := by
          apply dropWhile_eq_self_cons pyIsSpace a (zs ++ t)
          rw [← hy]
          exact lstrip_y
        simp [List.dropWhile_cons, ha]
  -- right strip of z is a no-op
  have hzr : ((pyStrip l).reverse.dropWhile pyIsSpace).reverse = pyStrip l := by
    unfold pyStrip
    simp only [List.reverse_reverse]
    rw [dropWhile_dropWhile_self]
  rw [show pyStrip (pyStrip l) =
    (((pyStrip l).dropWhile pyIsSpace).reverse.dropWhile pyIsSpace).reverse from rfl]
  rw [hzl, hzr]

/- ### No triple backtick survives stripFence -/

/-- Length of the leading backtick run. -/
def countLead (l : List Char) : Nat :=
  (l.takeWhile (fun c => c = '`')).length

theorem countLead_cons_tick (rest : List Char) :
    countLead ('`' :: rest) = countLead rest + 1 := by
  simp [countLead, List.takeWhile_cons]

theorem countLead_cons_ne (c : Char) (rest : List Char) (h : c ≠ '`') :
    countLead (c :: rest) = 0 := by
  simp [countLead, List.takeWhile_cons, h]

theorem triple_prefix_countLead {l : List Char}
    (h : ['`', '`', '`'] <+: l) : 3 ≤ countLead l := by
  obtain ⟨t, ht⟩ := h
  subst ht
  show 3 ≤ countLead ('`' :: '`' :: '`' :: t)
  rw [countLead_cons_tick, countLead_cons_tick, countLead_cons_tick]
  omega

theorem triple_prefix_head {c : Char} {l : List Char}
    (h : ['`', '`', '`'] <+: (c :: l)) : c = '`' := by
  obtain ⟨t, ht⟩ := h
  injection ht with h1 _
  exact h1.symm

theorem countLead_ge_two {l : List Char} (h : 2 ≤ countLead l) :
    ∃ t, l = '`' :: '`' :: t := by
  match l with
  | '`' :: '`' :: t => exact ⟨t, rfl⟩
  | [] => simp [countLead] at h
  | [c] =>
      by_cases hc : c = '`'
      · subst hc
        rw [countLead_cons_tick] at h
        simp [countLead] at h
      · rw [countLead_cons_ne c [] hc] at h; omega
  | c :: c2 :: t =>
      by_cases hc : c = '`'
      · subst hc
        by_cases hc2 : c2 = '`'
        · subst hc2; exact ⟨t, rfl⟩
        · rw [countLead_cons_tick, countLead_cons_ne c2 t hc2] at h; omega
      · rw [countLead_cons_ne c (c2 :: t) hc] at h; omega

theorem stripFence_cons_ne (c : Char) (rest : List Char)
    (h : ¬ (['`', '`', '`'] <+: (c :: rest))) :
    stripFence (c :: rest) = c :: stripFence rest := by
  rw [stripFence.eq_def]
  split
  · rename_i rest' heq
    exact absurd ⟨rest', heq.symm⟩ h
  · rename_i c' rest' hno heq
    injection heq with h1 h2
    subst h1
    subst h2
    rfl
  · rename_i heq
    exact absurd heq (List.cons_ne_nil c rest)

theorem stripFence_spec : ∀ l : List Char,
    countLead (stripFence l) = countLead l % 3 ∧
      ¬ (['`', '`', '`'] <:+: stripFence l) := by
  intro l
  induction l using stripFence.induct with
  | case1 rest ih =>
      rw [show stripFence ('`' :: '`' :: '`' :: rest) = stripFence rest from rfl]
      refine ⟨?_, ih.2⟩
      rw [ih.1, countLead_cons_tick, countLead_cons_tick, countLead_cons_tick]
      omega
  | case2 c rest h ih =>
      have hne : ¬ (['`', '`', '`'] <+: (c :: rest)) := by
        intro hpre
        obtain ⟨t, ht⟩ := hpre
        injection ht with h1 h2
        exact h t h1.symm h2.symm
      rw [stripFence_cons_ne c rest hne]
      by_cases hct : c = '`'
      · subst hct
        have hr2 : countLead rest ≤ 1 := by
          by_contra hle
          push_neg at hle
          obtain ⟨t, ht⟩ := @countLead_ge_two rest (by omega)
          exact hne ⟨t, by subst ht; rfl⟩
        constructor
        · rw [countLead_cons_tick, countLead_cons_tick, ih.1]
          omega
        · intro hinf
          rcases List.infix_cons_iff.mp hinf with hpre | htail
          · have h3 := triple_prefix_countLead hpre
            rw [countLead_cons_tick, ih.1] at h3
            omega
          · exact ih.2 htail
      · constructor
        · rw [countLead_cons_ne c _ hct, countLead_cons_ne c _ hct]
        · intro hinf
          rcases List.infix_cons_iff.mp hinf with hpre | htail
          · exact hct (triple_prefix_head hpre)
          · exact ih.2 htail
  | case3 =>
      refine ⟨by simp [stripFence, countLead], ?_⟩
      intro h
      rw [show stripFence [] = [] from rfl] at h
      have := List.eq_nil_of_infix_nil h
      simp at this

/-- The output of the `"```"` removal never contains a triple backtick. -/
theorem stripFence_no_triple (l : List Char) :
    ¬ (['`', '`', '`'] <:+: stripFence l) :=
  (stripFence_spec l).2

/- ### The strippers are the identity where their pattern is absent -/

theorem stripFence_eq_self : ∀ l : List Char,
    ¬ (['`', '`', '`'] <:+: l) → stripFence l = l := by
  intro l
  induction l using stripFence.induct with
  | case1 rest ih =>
      intro h
      exact absurd (List.IsPrefix.isInfix ⟨rest, rfl⟩) h
  | case2 c rest h ih =>
      intro hinf
      have hne : ¬ (['`', '`', '`'] <+: (c :: rest)) := by
        intro hpre
        exact hinf hpre.isInfix
      rw [stripFence_cons_ne c rest hne,
        ih (fun ht => hinf (List.infix_cons_iff.mpr (Or.inr ht)))]
  | case3 => intro _; rfl

set_option maxHeartbeats 1000000 in
theorem stripFencePython_cons_ne (c : Char) (rest : List Char)
    (h : ¬ ("```python".data <+: (c :: rest))) :
    stripFencePython (c :: rest) = c :: stripFencePython rest := by
  rw [stripFencePython.eq_def]
  split
  · rename_i rest' heq
    exact absurd ⟨rest', heq.symm⟩ h
  · rename_i c' rest' hno heq
    injection heq with h1 h2
    subst h1
    subst h2
    rfl
  · rename_i heq
    exact absurd heq (List.cons_ne_nil c rest)

theorem stripFencePython_eq_self : ∀ l : List Char,
    ¬ ("```python".data <:+: l) → stripFencePython l = l := by
  intro l
  induction l using stripFencePython.induct with
  | case1 rest ih =>
      intro h
      exact absurd (List.IsPrefix.isInfix ⟨rest, rfl⟩) h
  | case2 c rest h ih =>
      intro hinf
      have hne : ¬ ("```python".data <+: (c :: rest)) := by
        intro hpre
        exact hinf hpre.isInfix
      rw [stripFencePython_cons_ne c rest hne,
        ih (fun ht => hinf (List.infix_cons_iff.mpr (Or.inr ht)))]
  | case3 => intro _; rfl

theorem triple_within_fencePython {l : List Char}
    (h : "```python".data <:+: l) : ['`', '`', '`'] <:+: l :=
  (List.IsPrefix.isInfix ⟨"python".data, rfl⟩).trans h

/- ### The claim C10 theorem about clean_python_code -/

/-- The fence-stripped text built by the first two statements of
`clean_python_code`. -/
def fenceStrippedPy (s : String) : List Char :=
  stripFence (stripFencePython s.data)

/-- The text after the `import os` cut of `clean_python_code`. -/
def importCut (s : String) : List Char :=
  if containsSub ("import os".data) (fenceStrippedPy s) then
    (fenceStrippedPy s).drop
      ((findSub ("import os".data) (fenceStrippedPy s)).getD 0)
  else fenceStrippedPy s

theorem clean_python_code_eq (s : String) :
    clean_python_code s = String.mk (pyStrip (importCut s)) := rfl

theorem importCut_within (s : String) : importCut s <:+: fenceStrippedPy s := by
  unfold importCut
  split
  · exact (List.drop_suffix _ _).isInfix
  · exact List.infix_rfl

theorem clean_data_within (s : String) :
    (clean_python_code s).data <:+: fenceStrippedPy s := by
  rw [clean_python_code_eq]
  exact (pyStrip_within (importCut s)).trans (importCut_within s)

theorem clean_no_triple (s : String) :
    ¬ (['`', '`', '`'] <:+: (clean_python_code s).data) := by
  intro h
  exact stripFence_no_triple (stripFencePython s.data)
    (h.trans (clean_data_within s))

theorem importOs_prefix_pyStrip {l : List Char}
    (h : "import os".data <+: l) : "import os".data <+: pyStrip l := by
  obtain ⟨t, ht⟩ := h
  -- the left strip is a no-op: the head is 'i'
  have hleft : l.dropWhile pyIsSpace = l := by
    rw [← ht]
    rw [show ("import os".data ++ t) = 'i' :: ("mport os".data ++ t) from rfl]
    rw [List.dropWhile_cons]
    simp [pyIsSpace]
  unfold pyStrip
  rw [hleft, ← ht]
  rw [List.reverse_append]
  rw [List.dropWhile_append]
  split
  · -- the whole tail was whitespace: the strip stops inside "import os".reverse
    rename_i hemp
    rw [show ("import os".data).reverse = 's' :: "o tropmi".data from rfl]
    rw [List.dropWhile_cons]
    simp only [show pyIsSpace 's' = false from rfl, Bool.false_eq_true, if_false]
    exact ⟨[], by simp⟩
  · rename_i hemp
    rw [List.reverse_append, List.reverse_reverse]
    exact ⟨(t.reverse.dropWhile pyIsSpace).reverse, rfl⟩

theorem clean_begins_importOs (s : String)
    (h : containsSub ("import os".data) (fenceStrippedPy s) = true) :
    "import os".data <+: (clean_python_code s).data := by
  rw [clean_python_code_eq]
  have hdrop : "import os".data <+: importCut s := by
    unfold importCut
    rw [if_pos h]
    have hsome : (findSub ("import os".data) (fenceStrippedPy s)).isSome = true := h
    obtain ⟨i, hi⟩ := Option.isSome_iff_exists.mp hsome
    rw [hi]
    exact findSub_drop _ _ i hi
  exact importOs_prefix_pyStrip hdrop

theorem clean_pyStrip_fixed (s : String) :
    pyStrip (clean_python_code s).data = (clean_python_code s).data := by
  rw [clean_python_code_eq]
  exact pyStrip_idem (importCut s)

theorem clean_idem (s : String) :
    clean_python_code (clean_python_code s) = clean_python_code s := by
  have hnt : ¬ (['`', '`', '`'] <:+: (clean_python_code s).data) := clean_no_triple s
  have h1 : stripFencePython (clean_python_code s).data = (clean_python_code s).data :=
    stripFencePython_eq_self _ (fun hf => hnt (triple_within_fencePython hf))
  have h2 : fenceStrippedPy (clean_python_code s) = (clean_python_code s).data := by
    unfold fenceStrippedPy
    rw [h1]
    exact stripFence_eq_self _ hnt
  have hx : importCut (clean_python_code s) = (clean_python_code s).data := by
    unfold importCut
    rw [h2]
    split
    · rename_i hc
      have hpre : "import os".data <+: (clean_python_code s).data := by
        apply clean_begins_importOs s
        rw [containsSub_iff] at hc ⊢
        exact hc.trans (clean_data_within s)
      rw [findSub_eq_zero _ _ hpre]
      simp
    · rfl
  rw [clean_python_code_eq (clean_python_code s), hx, clean_pyStrip_fixed s]

/-- C10: for every input string the output of `clean_python_code` contains
no occurrence of three consecutive backticks; whenever the fence-stripped
text contains `"import os"`, the output begins with `"import os"` (everything
before its first occurrence having been dropped); the output has no leading
or trailing whitespace (it is a fixed point of `strip`); and consequently
`clean_python_code` is idempotent. -/
theorem c10_clean_python_code_props (s : String) :
    containsSub ("```".data) (clean_python_code s).data = false
    ∧ (containsSub ("import os".data) (fenceStrippedPy s) = true →
        "import os".data <+: (clean_python_code s).data)
    ∧ pyStrip (clean_python_code s).data = (clean_python_code s).data
    ∧ clean_python_code (clean_python_code s) = clean_python_code s := by
  refine ⟨?_, clean_begins_importOs s, clean_pyStrip_fixed s, clean_idem s⟩
  rw [← Bool.not_eq_true, containsSub_iff]
  exact clean_no_triple s

/-- Witness for C10 at a concrete fenced LLM output. -/
theorem c10_clean_python_code_props_witness :
    containsSub ("import os".data)
        (fenceStrippedPy "```python\nprint(0)\nimport os\nx()\n```") = true
    ∧ "import os".data <+:
        (clean_python_code "```python\nprint(0)\nimport os\nx()\n```").data :=
  ⟨by rfl,
    (c10_clean_python_code_props "```python\nprint(0)\nimport os\nx()\n```").2.1 (by rfl)⟩

/- ### Claims C9, C1, C2 -/

/-- C9 (code bug): when `get_stored_html_details` yields `(None, None, None)`
— stored_files missing, no `*.html` file, or an unreadable first file —
`generate_selenium_script` evaluates `extract_selectors(html_content)` with
`html_content = None` *before* the `if not html_content` guard
(selenium_generator.py lines 17-21, agent.py lines 242-246), so
`re.findall(pattern, None)` raises `TypeError` and the `"# No HTML found."`
return is never reached, for every chain oracle and test case. -/
theorem c9_no_html_raises_typeError
    (chainO : String → Option String → Option String → List (String × String) →
      Except String String)
    (tc : List (String × String)) :
    generate_selenium_script chainO (none, none, none) tc =
      .error PyErr.typeError := rfl

/-- The visibility-dependency text is a fixed substring of the rendered
system prompt, whatever selector map is substituted. -/
theorem vis_infix_prompt (sm : String) :
    visibilityDependencyText.data <:+: (promptOfSelectorMap sm).data := by
  refine ⟨(sysSeg0 ++ sm ++ sysSeg1 ++ sm ++ sysSeg2 ++ sm ++ sysSeg3 ++ sm ++
    sysSeg4a).data, (sysSeg4b ++ sm ++ sysSeg5).data, ?_⟩
  simp only [promptOfSelectorMap, String.data_append, List.append_assoc]

/-- C1 (amended): the visibility-dependency prerequisite text in the prompt
built by `generate_selenium_script` is a hardcoded literal of
`system_template`, not a function of the stored HTML: it occurs in the
rendered system prompt for every selector map, and the prompt depends on the
HTML only through `extract_selectors` (two HTML inputs with equal selector
maps yield equal prompts). -/
theorem c1_visibility_text_constant :
    (∀ sm : String, visibilityDependencyText.data <:+: (promptOfSelectorMap sm).data)
    ∧ (∀ h1 h2 : String, extract_selectors h1 = extract_selectors h2 →
        buildSystemPrompt h1 = buildSystemPrompt h2) := by
  refine ⟨vis_infix_prompt, ?_⟩
  intro h1 h2 h
  unfold buildSystemPrompt
  rw [h]

/-- Witness for C1 (amended) at two concrete HTML inputs with the same
selector map. -/
theorem c1_visibility_text_constant_witness :
    extract_selectors "<p></p>" = extract_selectors "<p ></p>"
    ∧ buildSystemPrompt "<p></p>" = buildSystemPrompt "<p ></p>" :=
  ⟨by rfl, c1_visibility_text_constant.2 "<p></p>" "<p ></p>" (by rfl)⟩

/-- C1 (counterexample): for the claim's pair — an HTML whose markup hides
`#cart-summary` until a product is added, and one with no cart-summary
element — the selector maps differ, yet both prompts are the same fixed
template around the selector-map slots, each containing the identical
hardcoded visibility-dependency text: the derived prerequisite text does
not differ. -/
theorem c1_visibility_text_counterexample :
    extract_selectors
        "<div class=\"product-card\"><button>Add</button></div><div id=\"cart-summary\" style=\"display:none\"></div>"
      ≠ extract_selectors "<div class=\"product-card\"><button>Add</button></div>"
    ∧ buildSystemPrompt
        "<div class=\"product-card\"><button>Add</button></div><div id=\"cart-summary\" style=\"display:none\"></div>"
      = some (promptOfSelectorMap
          "ID: #cart-summary\nCLASS: .product-card\nBUTTON: <button> (no class)")
    ∧ buildSystemPrompt "<div class=\"product-card\"><button>Add</button></div>"
      = some (promptOfSelectorMap "CLASS: .product-card\nBUTTON: <button> (no class)")
    ∧ visibilityDependencyText.data <:+: (promptOfSelectorMap
        "ID: #cart-summary\nCLASS: .product-card\nBUTTON: <button> (no class)").data
    ∧ visibilityDependencyText.data <:+: (promptOfSelectorMap
        "CLASS: .product-card\nBUTTON: <button> (no class)").data := by
  refine ⟨?_, by rfl, by rfl, vis_infix_prompt _, vis_infix_prompt _⟩
  intro h
  rw [show extract_selectors
      "<div class=\"product-card\"><button>Add</button></div><div id=\"cart-summary\" style=\"display:none\"></div>"
    = some "ID: #cart-summary\nCLASS: .product-card\nBUTTON: <button> (no class)" from rfl,
    show extract_selectors "<div class=\"product-card\"><button>Add</button></div>"
    = some "CLASS: .product-card\nBUTTON: <button> (no class)" from rfl] at h
  have := Option.some.inj h
  have hlen := congrArg (fun s : String => s.data.length) this
  simp at hlen

/- ### Claim C2: extract_selectors against the spec description -/

/-- The ID group of the claim's (amended) description: one line `ID: #v` per
non-overlapping substring occurrence of the pattern `id="([^"]+)"`, in scan
order. -/
def idLinesSpec (h : List Char) : List String :=
  (scanAttr ("id=\"".data) h).map (fun v => "ID: #" ++ String.mk v)

/-- The CLASS group: one line `CLASS: .c` per whitespace-separated token of
each `class="..."` pattern occurrence. -/
def classLinesSpec (h : List Char) : List String :=
  (((scanAttr ("class=\"".data) h).map splitWs).flatten).map
    (fun c => "CLASS: ." ++ String.mk c)

/-- The BUTTON group line for one `<button...>` match, as the amended claim
states it: `BUTTON: <button> (no class)` when the tag text has no `class="`
substring; otherwise the first whitespace token of the first
`class="([^"]+)"` capture, and an `IndexError` (`none`) when that pattern
has no match inside the tag or its capture is all whitespace. -/
def buttonLineSpec (btn : List Char) : Option String :=
  if containsSub ("class=\"".data) btn = false then
    some "BUTTON: <button> (no class)"
  else
    match (scanAttr ("class=\"".data) btn).head? with
    | none => none
    | some cs =>
        ((splitWs cs).head?).map (fun t => "BUTTON: ." ++ String.mk t ++ " button")

/-- The INPUT group: `INPUT: #i` per `<input...>` match whose text contains
an `id="([^"]+)"` match; inputs without one are omitted. -/
def inputLinesSpec (h : List Char) : List String :=
  (scanTag ("<input".data) h).filterMap
    (fun inp => ((scanAttr ("id=\"".data) inp).head?).map
      (fun i => "INPUT: #" ++ String.mk i))

/-- The TEXTAREA group, like the INPUT group. -/
def textareaLinesSpec (h : List Char) : List String :=
  (scanTag ("<textarea".data) h).filterMap
    (fun ta => ((scanAttr ("id=\"".data) ta).head?).map
      (fun i => "TEXTAREA: #" ++ String.mk i))

/-- `extract_selectors` as the amended claim describes it: the five groups
in their fixed order, joined by newlines, failing (`none` = `IndexError`)
exactly when some button line fails. -/
def extract_selectors_spec (html : String) : Option String :=
  ((scanTag ("<button".data) html.data).mapM buttonLineSpec).map
    (fun buttonLs => String.intercalate "\n"
      (idLinesSpec html.data ++ classLinesSpec html.data ++ buttonLs ++
        inputLinesSpec html.data ++ textareaLinesSpec html.data))

theorem buttonLineSpec_eq (btn : List Char) : buttonLineSpec btn = buttonLine btn := by
  unfold buttonLineSpec buttonLine
  by_cases hc : containsSub ("class=\"".data) btn
  · rw [if_pos hc, if_neg (by simp [hc])]
    cases hh : (scanAttr ("class=\"".data) btn).head? with
    | none => rfl
    | some cs =>
        cases hsw : splitWs cs with
        | nil => simp [hsw]
        | cons t ts => simp [hsw]
  · rw [if_neg hc, if_pos (by simp [Bool.not_eq_true] at hc; simp [hc])]

/-- C2 (amended): `extract_selectors` computes exactly the claim's
group-ordered line list, with "attribute occurrence" corrected to
"substring occurrence of the regex pattern" and with the partiality of the
button branch made explicit. -/
theorem c2_extract_selectors_spec (html : String) :
    extract_selectors html = extract_selectors_spec html := by
  unfold extract_selectors extract_selectors_spec
  rw [show buttonLineSpec = buttonLine from funext buttonLineSpec_eq]
  simp only [idLinesSpec, classLinesSpec, inputLinesSpec, textareaLinesSpec]
  cases hm : (scanTag ("<button".data) html.data).mapM buttonLine with
  | none => simp [hm]
  | some bls => simp [hm]

/-- C2 (counterexample): the claim as frozen fails twice on the code.  A
`data-id="x"` substring is not an id attribute, yet yields `ID: #x`; and on
`<button class="">` the function does not return a line list at all — it
raises `IndexError`. -/
theorem c2_extract_selectors_counterexample :
    extract_selectors "<p data-id=\"x\"></p>" = some "ID: #x"
    ∧ extract_selectors "<button class=\"\"></button>" = none :=
  ⟨by rfl, by rfl⟩

/- ### Claim C3: clean_and_parse_json -/

/-- The claim's extraction guard: a `[`...`]` region exists, or (when no
`[`) a brace region exists. -/
def claimHasRegion (text : List Char) : Bool :=
  if pyFindChar text '[' ≠ -1 then pyRFindChar text ']' + 1 ≠ 0
  else pyFindChar text '{' ≠ -1 && pyRFindChar text '}' + 1 ≠ 0

/-- The substring the claim describes: from the first `[` through the last
`]`, or, when the text contains no `[`, from the first brace through the
last closing brace. -/
def claimRegion (text : List Char) : List Char :=
  if pyFindChar text '[' ≠ -1 then
    pySlice text (pyFindChar text '[') (pyRFindChar text ']' + 1)
  else
    pySlice text (pyFindChar text '{') (pyRFindChar text '}' + 1)

theorem pyFindChar_eq_neg_one_iff (l : List Char) (c : Char) :
    pyFindChar l c = -1 ↔ c ∉ l := by
  unfold pyFindChar
  cases h : l.findIdx? (· = c) with
  | none =>
      simp only [List.findIdx?_eq_none_iff] at h
      constructor
      · intro _ hmem
        have := h c hmem
        simp at this
      · intro _
        rfl
  | some i =>
      constructor
      · intro hi
        exfalso
        rw [show (match some i with | some j => (j : Int) | none => (-1 : Int))
          = (i : Int) from rfl] at hi
        omega
      · intro hc
        obtain ⟨hlt, hp, -⟩ := List.findIdx?_eq_some_iff_getElem.mp h
        have : l[i] = c := by simpa using hp
        exact absurd (this ▸ l.getElem_mem hlt) hc

/-- `clean_and_parse_json` in the claim's terms: parse the escape-repaired
claim region when one exists, else the No-JSON dict. -/
theorem clean_and_parse_json_eq (parse : String → Except String PyJson)
    (s : String) :
    clean_and_parse_json parse s =
      if claimHasRegion (fenceStrippedJson s) then
        (match parse (String.mk (fixEscapes (claimRegion (fenceStrippedJson s)))) with
         | .ok v => v
         | .error _ => errParseRaw s)
      else errNoJson := by
  unfold clean_and_parse_json claimHasRegion claimRegion
  generalize fenceStrippedJson s = t
  by_cases h1 : pyFindChar t '[' = -1
  · by_cases h2 : pyFindChar t '{' = -1
    · simp [h1, h2]
    · by_cases h3 : pyRFindChar t '}' + 1 = 0
      · simp [h1, h2, h3]
      · simp [h1, h2, h3]
  · by_cases h2 : pyRFindChar t ']' + 1 = 0
    · simp [h1, h2]
    · simp [h1, h2]

/-- Does a parsed Python value, as a dict, contain the key `"error"`? -/
def hasErrorKey : PyJson → Bool
  | .obj kvs => kvs.any (fun kv => kv.1 == "error")
  | _ => false

/-- C3 (amended): `clean_and_parse_json` is total — for every parse oracle
and every input it returns a value; it returns the No-JSON dict when the
fence-stripped text contains neither `[` nor a brace; when the claim's
region exists it returns the parsed value of the *escape-repaired* region
(or the error/raw dict when parsing fails); and in every case the result is
the No-JSON dict, the error/raw dict, or the parsed value of the repaired
region. -/
theorem c3_clean_and_parse_json_props (parse : String → Except String PyJson)
    (s : String) :
    ('[' ∉ fenceStrippedJson s → '{' ∉ fenceStrippedJson s →
        clean_and_parse_json parse s = errNoJson)
    ∧ (claimHasRegion (fenceStrippedJson s) = true →
        clean_and_parse_json parse s =
          match parse (String.mk (fixEscapes (claimRegion (fenceStrippedJson s)))) with
          | .ok v => v
          | .error _ => errParseRaw s)
    ∧ (clean_and_parse_json parse s = errNoJson
        ∨ clean_and_parse_json parse s = errParseRaw s
        ∨ ∃ v, parse (String.mk (fixEscapes (claimRegion (fenceStrippedJson s)))) = .ok v
            ∧ clean_and_parse_json parse s = v) := by
  refine ⟨?_, ?_, ?_⟩
  · intro hb hc
    have h1 : pyFindChar (fenceStrippedJson s) '[' = -1 :=
      (pyFindChar_eq_neg_one_iff _ _).mpr hb
    have h2 : pyFindChar (fenceStrippedJson s) '{' = -1 :=
      (pyFindChar_eq_neg_one_iff _ _).mpr hc
    rw [clean_and_parse_json_eq]
    rw [if_neg (by simp [claimHasRegion, h1, h2])]
  · intro h
    rw [clean_and_parse_json_eq, if_pos h]
  · by_cases h : claimHasRegion (fenceStrippedJson s) = true
    · cases hp : parse (String.mk (fixEscapes (claimRegion (fenceStrippedJson s)))) with
      | ok v =>
          have hres : clean_and_parse_json parse s = v := by
            rw [clean_and_parse_json_eq, if_pos h, hp]
          exact Or.inr (Or.inr ⟨v, rfl, hres⟩)
      | error e =>
          refine Or.inr (Or.inl ?_)
          rw [clean_and_parse_json_eq, if_pos h, hp]
    · refine Or.inl ?_
      rw [clean_and_parse_json_eq, if_neg (by simpa using h)]

/-- Witness for C3 at two concrete LLM outputs: one with no JSON at all,
one with a well-formed array. -/
theorem c3_clean_and_parse_json_props_witness :
    clean_and_parse_json json_loads_model "plain text" = errNoJson
    ∧ clean_and_parse_json json_loads_model "[\"ok\"]" = PyJson.arr [.str "ok"] :=
  ⟨(c3_clean_and_parse_json_props json_loads_model "plain text").1
      (by decide) (by decide),
   by
    have h := (c3_clean_and_parse_json_props json_loads_model "[\"ok\"]").2.1 (by rfl)
    rw [h]
    rfl⟩

/-- C3 (counterexample): on the output `["a\zb"]` the function returns the
array `["a/zb"]` — the parse of the escape-*repaired* substring — although
the extracted substring itself does not parse (`json.loads` raises on the
invalid `\z` escape) and the result is not a dict containing `'error'`:
the claim's description of the returned value is wrong as frozen. -/
theorem c3_clean_and_parse_json_counterexample :
    clean_and_parse_json json_loads_model "[\"a\\zb\"]" = PyJson.arr [.str "a/zb"]
    ∧ json_loads_model (String.mk (claimRegion (fenceStrippedJson "[\"a\\zb\"]")))
        = .error "Invalid \\escape"
    ∧ hasErrorKey (PyJson.arr [.str "a/zb"]) = false :=
  ⟨by rfl, by rfl, by rfl⟩

/- ### Claim C4: generate_test_cases wraps the vector-store load -/

/-- C4: whenever loading the Chroma database for `db_id` raises, the bare
`except` of test_case.py lines 11-14 returns the `DB not found` error dict;
the result is the same for every similarity-search and LLM-chain oracle, so
the LLM call is never reached. -/
theorem c4_generate_test_cases_db_error {DB : Type}
    (load_chroma : String → Except String DB)
    (similarity_search : DB → String → Nat → Except String (List RagDoc))
    (chainInvoke : String → String → Except String String)
    (parse : String → Except String PyJson)
    (db_id query : String) (e : String)
    (h : load_chroma db_id = .error e) :
    generate_test_cases load_chroma similarity_search chainInvoke parse db_id query
      = .ok (.obj [("error", .str "DB not found")])
    ∧ ∀ (search₂ : DB → String → Nat → Except String (List RagDoc))
        (chain₂ : String → String → Except String String),
        generate_test_cases load_chroma search₂ chain₂ parse db_id query
          = generate_test_cases load_chroma similarity_search chainInvoke parse db_id query := by
  constructor
  · unfold generate_test_cases
    rw [h]
  · intro search₂ chain₂
    unfold generate_test_cases
    rw [h]

/-- Witness for C4 with a concrete failing loader. -/
theorem c4_generate_test_cases_db_error_witness :
    (fun _ : String => (Except.error "chroma load failed" : Except String Unit)) "db_x"
      = .error "chroma load failed"
    ∧ generate_test_cases (fun _ => .error "chroma load failed")
        (fun (_ : Unit) _ _ => .ok []) (fun _ _ => .ok "[]") json_loads_model
        "db_x" "make tests"
      = .ok (.obj [("error", .str "DB not found")]) :=
  ⟨rfl,
    (c4_generate_test_cases_db_error (fun _ => .error "chroma load failed")
      (fun _ _ _ => .ok []) (fun _ _ => .ok "[]") json_loads_model
      "db_x" "make tests" "chroma load failed" rfl).1⟩

/- ### Claim C5: /ingest persists the HTML and discards the temp uploads -/

/-- The temp paths the support uploads are saved under. -/
def tempPathsOf (fresh : Nat → String) (names : List String) : List String :=
  names.enum.map (fun p => "temp_data/" ++ fresh p.1 ++ "_" ++ p.2)

/-- The persisted path of the uploaded HTML page. -/
def htmlPathOf (fresh : Nat → String) (names : List String)
    (htmlName : String) : String :=
  "stored_files/" ++ fresh names.length ++ "_" ++ htmlName

theorem tempPath_ne_storedPath (a b : String) :
    ("stored_files/" ++ a) ≠ ("temp_data/" ++ b) := by
  intro h
  have hd := congrArg String.data h
  rw [String.data_append, String.data_append] at hd
  have h3 := congrArg (fun l => l.headD ' ') hd
  simp at h3

theorem ingestSaveStep_foldl (fresh : Nat → String) :
    ∀ (l : List (Nat × String)) (acc : FileSys × List String),
      (l.foldl (ingestSaveStep fresh) acc).2 =
        acc.2 ++ l.map (fun p => "temp_data/" ++ fresh p.1 ++ "_" ++ p.2)
      ∧ (l.foldl (ingestSaveStep fresh) acc).1.stored = acc.1.stored
      ∧ (l.foldl (ingestSaveStep fresh) acc).1.temp =
          (l.map (fun p => "temp_data/" ++ fresh p.1 ++ "_" ++ p.2)).reverse ++ acc.1.temp := by
  intro l
  induction l with
  | nil => intro acc; simp
  | cons p rest ih =>
      intro acc
      simp only [List.foldl_cons, List.map_cons]
      obtain ⟨h1, h2, h3⟩ := ih (ingestSaveStep fresh acc p)
      refine ⟨?_, ?_, ?_⟩
      · rw [h1]
        simp [ingestSaveStep, save_file]
      · rw [h2]
        simp [ingestSaveStep, save_file]
      · rw [h3]
        simp [ingestSaveStep, save_file]

theorem removePath_stored_mem (fs : FileSys) (q x : String) (hne : x ≠ q) :
    x ∈ (removePath fs q).stored ↔ x ∈ fs.stored := by
  simp [removePath, List.mem_filter, hne]

theorem foldl_removePath_stored (x : String) :
    ∀ (ps : List String) (fs : FileSys), (∀ q ∈ ps, x ≠ q) →
      (x ∈ (ps.foldl removePath fs).stored ↔ x ∈ fs.stored) := by
  intro ps
  induction ps with
  | nil => intro fs _; rfl
  | cons q rest ih =>
      intro fs h
      simp only [List.foldl_cons]
      rw [ih (removePath fs q) (fun r hr => h r (List.mem_cons_of_mem q hr))]
      exact removePath_stored_mem fs q x (h q (List.mem_cons_self q rest))

theorem removePath_temp_not_mem_self (fs : FileSys) (q : String) :
    q ∉ (removePath fs q).temp := by
  simp [removePath, List.mem_filter]

theorem removePath_temp_absent (fs : FileSys) (q x : String) (h : x ∉ fs.temp) :
    x ∉ (removePath fs q).temp := by
  simp only [removePath, List.mem_filter]
  intro hc
  exact h hc.1

theorem foldl_removePath_temp_absent (x : String) :
    ∀ (ps : List String) (fs : FileSys), x ∉ fs.temp →
      x ∉ (ps.foldl removePath fs).temp := by
  intro ps
  induction ps with
  | nil => intro fs h; exact h
  | cons q rest ih =>
      intro fs h
      exact ih (removePath fs q) (removePath_temp_absent fs q x h)

theorem foldl_removePath_temp_removed (x : String) :
    ∀ (ps : List String) (fs : FileSys), x ∈ ps →
      x ∉ (ps.foldl removePath fs).temp := by
  intro ps
  induction ps with
  | nil => intro fs h; exact absurd h (List.not_mem_nil x)
  | cons q rest ih =>
      intro fs h
      rcases List.mem_cons.mp h with rfl | hr
      · exact foldl_removePath_temp_absent x rest (removePath fs x)
          (removePath_temp_not_mem_self fs x)
      · exact ih (removePath fs q) hr

theorem storedPath_ne_tempPath (a b c d : String) :
    ("stored_files/" ++ a ++ "_" ++ b) ≠ ("temp_data/" ++ c ++ "_" ++ d) := by
  intro h
  have hd := congrArg (fun s : String => s.data.head?) h
  simp only [String.data_append, List.head?_append] at hd
  rw [show ("stored_files/".data.head?) = some 's' from rfl,
    show ("temp_data/".data.head?) = some 't' from rfl] at hd
  simp at hd

theorem ingest_final_fs (fs₀ : FileSys) (reg : Registry)
    (supportNames : List String) (htmlName : String) (fresh : Nat → String)
    (outcome : IngestOutcome) (persistDir uuidHex now : String) :
    (ingest_knowledge_base fs₀ reg supportNames htmlName fresh outcome
        persistDir uuidHex now).2.1 =
      (((supportNames.enum).foldl (ingestSaveStep fresh) (fs₀, [])).2).foldl
        removePath
        (save_file ((supportNames.enum).foldl (ingestSaveStep fresh) (fs₀, [])).1
          (fresh supportNames.length) htmlName true).1 := by
  cases outcome <;> rfl

/-- C5: for every ingest request — whatever the pipeline outcome, success,
400 for empty extraction, or a 500 from the splitter/Chroma/registration —
the uploaded HTML page's path is on disk under `stored_files` when the
request completes, and none of the support-doc paths saved to `temp_data`
during the request survives the `finally` cleanup. -/
theorem c5_ingest_persists_html_discards_temp (fs₀ : FileSys) (reg : Registry)
    (supportNames : List String) (htmlName : String) (fresh : Nat → String)
    (outcome : IngestOutcome) (persistDir uuidHex now : String) :
    htmlPathOf fresh supportNames htmlName ∈
      (ingest_knowledge_base fs₀ reg supportNames htmlName fresh outcome
        persistDir uuidHex now).2.1.stored
    ∧ ∀ p ∈ tempPathsOf fresh supportNames,
        p ∉ (ingest_knowledge_base fs₀ reg supportNames htmlName fresh outcome
          persistDir uuidHex now).2.1.temp := by
  rw [ingest_final_fs]
  have hps := (ingestSaveStep_foldl fresh supportNames.enum (fs₀, [])).1
  rw [hps, List.nil_append]
  rw [show supportNames.enum.map
      (fun p => "temp_data/" ++ fresh p.1 ++ "_" ++ p.2) =
    tempPathsOf fresh supportNames from rfl]
  constructor
  · apply (foldl_removePath_stored _ _ _ ?_).mpr
    · show htmlPathOf fresh supportNames htmlName ∈
        (save_file _ (fresh supportNames.length) htmlName true).1.stored
      simp only [save_file]
      exact List.mem_cons_self _ _
    · intro q hq
      simp only [tempPathsOf, List.mem_map] at hq
      obtain ⟨p, -, rfl⟩ := hq
      exact storedPath_ne_tempPath _ _ _ _
  · intro p hp
    exact foldl_removePath_temp_removed p _ _ hp

/-- Witness for C5 at a concrete request: one support doc, one HTML page,
a successful pipeline. -/
theorem c5_ingest_persists_html_discards_temp_witness :
    "temp_data/u_a.txt" ∈ tempPathsOf (fun _ => "u") ["a.txt"]
    ∧ htmlPathOf (fun _ => "u") ["a.txt"] "page.html" ∈
        (ingest_knowledge_base ⟨[], []⟩ [] ["a.txt"] "page.html" (fun _ => "u")
          (.ok 3) "databases/chromadb_x" "0123456789abcdef0123456789abcdef"
          "2025-01-01T00:00:00").2.1.stored
    ∧ "temp_data/u_a.txt" ∉
        (ingest_knowledge_base ⟨[], []⟩ [] ["a.txt"] "page.html" (fun _ => "u")
          (.ok 3) "databases/chromadb_x" "0123456789abcdef0123456789abcdef"
          "2025-01-01T00:00:00").2.1.temp :=
  ⟨by decide,
    (c5_ingest_persists_html_discards_temp ⟨[], []⟩ [] ["a.txt"] "page.html"
      (fun _ => "u") (.ok 3) "databases/chromadb_x"
      "0123456789abcdef0123456789abcdef" "2025-01-01T00:00:00").1,
    (c5_ingest_persists_html_discards_temp ⟨[], []⟩ [] ["a.txt"] "page.html"
      (fun _ => "u") (.ok 3) "databases/chromadb_x"
      "0123456789abcdef0123456789abcdef" "2025-01-01T00:00:00").2
      "temp_data/u_a.txt" (by decide)⟩

/- ### Dictionary lemmas for the registry claims -/

theorem pyDictGet_eq_none_iff {α : Type} (d : List (String × α)) (k : String) :
    pyDictGet d k = none ↔ d.any (fun kv => kv.1 = k) = false := by
  simp [pyDictGet, List.find?_eq_none, List.any_eq_false]

theorem pyDictGet_eq_none_iff_keys {α : Type} (d : List (String × α))
    (k : String) : pyDictGet d k = none ↔ k ∉ d.map Prod.fst := by
  rw [pyDictGet_eq_none_iff]
  simp only [List.any_eq_false, List.mem_map]
  constructor
  · rintro h ⟨⟨k1, v⟩, hm, hk⟩
    exact h _ hm (by simpa using hk)
  · intro h kv hm hk
    exact h ⟨kv, hm, by simpa using hk⟩

theorem pyDictSet_of_absent {α : Type} (d : List (String × α)) (k : String)
    (v : α) (h : pyDictGet d k = none) : pyDictSet d k v = d ++ [(k, v)] := by
  rw [pyDictSet, if_neg]
  rw [(pyDictGet_eq_none_iff d k).mp h]
  simp

theorem pyDictGet_append {α : Type} (d e : List (String × α)) (k : String) :
    pyDictGet (d ++ e) k = (pyDictGet d k).or (pyDictGet e k) := by
  simp only [pyDictGet, List.find?_append]
  cases d.find? (fun kv => kv.1 = k) <;> simp

theorem pyDictGet_map_overwrite_self {α : Type} (k : String) (v : α) :
    ∀ d : List (String × α), d.any (fun kv => kv.1 = k) = true →
      pyDictGet (d.map (fun kv => if kv.1 = k then (k, v) else kv)) k = some v := by
  intro d
  induction d with
  | nil => intro h; simp at h
  | cons p rest ih =>
      intro h
      by_cases hp : p.1 = k
      · simp [pyDictGet, List.find?_cons, hp]
      · have h2 : rest.any (fun kv => kv.1 = k) = true := by
          rw [List.any_cons] at h
          rcases Bool.or_eq_true_iff.mp h with h4 | h4
          · exact absurd (by simpa using h4) hp
          · exact h4
        simp only [List.map_cons, if_neg hp]
        rw [show pyDictGet (p :: rest.map (fun kv => if kv.1 = k then (k, v) else kv)) k =
          pyDictGet (rest.map (fun kv => if kv.1 = k then (k, v) else kv)) k from by
            simp [pyDictGet, List.find?_cons, hp]]
        exact ih h2

theorem pyDictGet_map_overwrite_other {α : Type} (k k2 : String) (v : α)
    (hne : k2 ≠ k) : ∀ d : List (String × α),
      pyDictGet (d.map (fun kv => if kv.1 = k2 then (k2, v) else kv)) k =
        pyDictGet d k := by
  intro d
  induction d with
  | nil => rfl
  | cons p rest ih =>
      by_cases hp : p.1 = k2
      · have hpk : ¬ p.1 = k := by rw [hp]; exact hne
        simp only [List.map_cons, if_pos hp]
        rw [show pyDictGet ((k2, v) :: rest.map (fun kv => if kv.1 = k2 then (k2, v) else kv)) k
            = pyDictGet (rest.map (fun kv => if kv.1 = k2 then (k2, v) else kv)) k from by
          simp [pyDictGet, List.find?_cons, hne]]
        rw [show pyDictGet (p :: rest) k = pyDictGet rest k from by
          simp [pyDictGet, List.find?_cons, hpk]]
        exact ih
      · simp only [List.map_cons, if_neg hp]
        by_cases hpk : p.1 = k
        · simp [pyDictGet, List.find?_cons, hpk]
        · rw [show pyDictGet (p :: rest.map (fun kv => if kv.1 = k2 then (k2, v) else kv)) k
              = pyDictGet (rest.map (fun kv => if kv.1 = k2 then (k2, v) else kv)) k from by
            simp [pyDictGet, List.find?_cons, hpk]]
          rw [show pyDictGet (p :: rest) k = pyDictGet rest k from by
            simp [pyDictGet, List.find?_cons, hpk]]
          exact ih

theorem pyDictGet_set_self {α : Type} (d : List (String × α)) (k : String)
    (v : α) : pyDictGet (pyDictSet d k v) k = some v := by
  by_cases h : d.any (fun kv => kv.1 = k)
  · rw [pyDictSet, if_pos h]
    exact pyDictGet_map_overwrite_self k v d h
  · rw [pyDictSet, if_neg h, pyDictGet_append]
    rw [(pyDictGet_eq_none_iff d k).mpr (by simp only [Bool.not_eq_true] at h; exact h)]
    simp [pyDictGet, List.find?_cons]

theorem pyDictGet_set_other {α : Type} (d : List (String × α)) (k k2 : String)
    (v : α) (hne : k2 ≠ k) :
    pyDictGet (pyDictSet d k2 v) k = pyDictGet d k := by
  by_cases h : d.any (fun kv => kv.1 = k2)
  · rw [pyDictSet, if_pos h]
    exact pyDictGet_map_overwrite_other k k2 v hne d
  · rw [pyDictSet, if_neg h, pyDictGet_append]
    cases hg : pyDictGet d k with
    | some w => simp
    | none =>
        simp only [Option.none_or]
        simp [pyDictGet, List.find?_cons, Ne.symm hne]
        simp [show decide (k2 = k) = false from by simpa using hne]

theorem pyDictGet_update_not_mem (ex : List (String × String)) (k : String)
    (hk : ∀ kv ∈ ex, kv.1 ≠ k) :
    ∀ d : List (String × String), pyDictGet (pyDictUpdate d ex) k = pyDictGet d k := by
  induction ex with
  | nil => intro d; rfl
  | cons p rest ih =>
      intro d
      rw [show pyDictUpdate d (p :: rest) = pyDictUpdate (pyDictSet d p.1 p.2) rest from rfl]
      rw [ih (fun kv hm => hk kv (List.mem_cons_of_mem p hm))]
      exact pyDictGet_set_other d k p.1 p.2 (hk p (List.mem_cons_self p rest))

theorem pyDictGet_update_isSome (ex : List (String × String)) (k : String) :
    ∀ d : List (String × String), (pyDictGet d k).isSome = true →
      (pyDictGet (pyDictUpdate d ex) k).isSome = true := by
  induction ex with
  | nil => intro d h; exact h
  | cons p rest ih =>
      intro d h
      rw [show pyDictUpdate d (p :: rest) = pyDictUpdate (pyDictSet d p.1 p.2) rest from rfl]
      apply ih
      by_cases hp : p.1 = k
      · subst hp
        rw [pyDictGet_set_self]
        rfl
      · rw [pyDictGet_set_other d k p.1 p.2 hp]
        exact h

/- ### Filter lemmas for delete_db_entry -/

theorem pyDictGet_filter_self {α : Type} (k : String) :
    ∀ d : List (String × α),
      pyDictGet (d.filter (fun kv => kv.1 ≠ k)) k = none := by
  intro d
  induction d with
  | nil => rfl
  | cons p rest ih =>
      by_cases hp : p.1 = k
      · simp only [List.filter_cons, hp]
        simpa using ih
      · simp only [List.filter_cons]
        rw [if_pos (by simpa using hp)]
        rw [show pyDictGet (p :: rest.filter (fun kv => kv.1 ≠ k)) k =
          pyDictGet (rest.filter (fun kv => kv.1 ≠ k)) k from by
            simp [pyDictGet, List.find?_cons, hp]]
        exact ih

theorem pyDictGet_filter_other {α : Type} (k k2 : String) (hne : k2 ≠ k) :
    ∀ d : List (String × α),
      pyDictGet (d.filter (fun kv => kv.1 ≠ k)) k2 = pyDictGet d k2 := by
  intro d
  induction d with
  | nil => rfl
  | cons p rest ih =>
      by_cases hp : p.1 = k
      · have hp2 : ¬ p.1 = k2 := by rw [hp]; exact fun he => hne he.symm
        simp only [List.filter_cons, hp]
        rw [if_neg (by simp)]
        rw [show pyDictGet (p :: rest) k2 = pyDictGet rest k2 from by
          simp [pyDictGet, List.find?_cons, hp2]]
        exact ih
      · simp only [List.filter_cons]
        rw [if_pos (by simpa using hp)]
        by_cases hp2 : p.1 = k2
        · simp [pyDictGet, List.find?_cons, hp2]
        · rw [show pyDictGet (p :: rest.filter (fun kv => kv.1 ≠ k)) k2 =
            pyDictGet (rest.filter (fun kv => kv.1 ≠ k)) k2 from by
              simp [pyDictGet, List.find?_cons, hp2]]
          rw [show pyDictGet (p :: rest) k2 = pyDictGet rest k2 from by
            simp [pyDictGet, List.find?_cons, hp2]]
          exact ih

theorem filter_length_of_nodup {α : Type} (k : String) :
    ∀ (d : List (String × α)), (d.map Prod.fst).Nodup →
      ∀ e, pyDictGet d k = some e →
        (d.filter (fun kv => kv.1 ≠ k)).length + 1 = d.length := by
  intro d
  induction d with
  | nil => intro _ e he; simp [pyDictGet] at he
  | cons p rest ih =>
      intro hnd e he
      simp only [List.map_cons, List.nodup_cons] at hnd
      by_cases hp : p.1 = k
      · have hrest : pyDictGet rest k = none := by
          rw [pyDictGet_eq_none_iff_keys]
          rw [← hp]
          exact hnd.1
        have hfilter : rest.filter (fun kv => kv.1 ≠ k) = rest := by
          apply List.filter_eq_self.mpr
          intro kv hm
          have hkne : kv.1 ≠ k := by
            intro hkk
            exact (pyDictGet_eq_none_iff_keys rest k).mp hrest
              (List.mem_map.mpr ⟨kv, hm, hkk⟩)
          simpa using hkne
        simp only [List.filter_cons, hp]
        rw [if_neg (by simp), hfilter]
        simp
      · simp only [List.filter_cons]
        rw [if_pos (by simpa using hp)]
        have he2 : pyDictGet rest k = some e := by
          rw [show pyDictGet (p :: rest) k = pyDictGet rest k from by
            simp [pyDictGet, List.find?_cons, hp]] at he
          exact he
        simp only [List.length_cons]
        rw [← ih hnd.2 e he2]

/-- `delete_db_entry` on a present key: at most that one entry is removed;
all other keys are untouched, and under the registry invariant exactly one
pair disappears. -/
theorem delete_db_entry_props (reg : Registry) (db_id : String) :
    (regGet reg db_id = none → (delete_db_entry reg db_id).2 = reg)
    ∧ regGet (delete_db_entry reg db_id).2 db_id = none
    ∧ (∀ k, k ≠ db_id → regGet (delete_db_entry reg db_id).2 k = regGet reg k)
    ∧ ((reg.map Prod.fst).Nodup → ∀ e, regGet reg db_id = some e →
        (delete_db_entry reg db_id).2.length + 1 = reg.length) := by
  refine ⟨?_, ?_, ?_, ?_⟩
  · intro h
    unfold delete_db_entry
    rw [h]
  · unfold delete_db_entry
    cases h : regGet reg db_id with
    | none => exact h
    | some e => exact pyDictGet_filter_self db_id reg
  · intro k hk
    unfold delete_db_entry
    cases h : regGet reg db_id with
    | none => rfl
    | some e => exact pyDictGet_filter_other db_id k hk reg
  · intro hnd e he
    unfold delete_db_entry
    rw [he]
    exact filter_length_of_nodup db_id reg hnd e he

/- ### register_db_entry and list_db_entries properties -/

/-- A hexadecimal digit, as `uuid4().hex` produces them. -/
def isHexChar (c : Char) : Bool :=
  c.isDigit || ('a' ≤ c && c ≤ 'f') || ('A' ≤ c && c ≤ 'F')

theorem register_entry_id (name pd : String)
    (extra : Option (List (String × String))) (uuidHex now : String)
    (hextra : ∀ ex, extra = some ex → ∀ kv ∈ ex, kv.1 ≠ "id") :
    ∀ reg : Registry,
      pyDictGet (register_db_entry reg name pd extra uuidHex now).2 "id" =
        some ("db_" ++ String.mk (uuidHex.data.take 12)) := by
  intro reg
  unfold register_db_entry
  cases extra with
  | none => rfl
  | some ex =>
      by_cases hex : ex.isEmpty
      · simp only [hex, if_pos]
        rfl
      · simp only [hex, Bool.false_eq_true, if_false]
        rw [pyDictGet_update_not_mem ex "id" (hextra ex rfl)]
        rfl

theorem register_entry_has (name pd : String)
    (extra : Option (List (String × String))) (uuidHex now : String)
    (field : String) (hf : field = "name" ∨ field = "persist_dir" ∨ field = "created_at") :
    ∀ reg : Registry,
      entryHas (register_db_entry reg name pd extra uuidHex now).2 field = true := by
  intro reg
  have hbase : entryHas [("id", "db_" ++ String.mk (uuidHex.data.take 12)),
      ("name", name), ("persist_dir", pd), ("created_at", now ++ "Z")] field = true := by
    rcases hf with rfl | rfl | rfl <;> rfl
  unfold register_db_entry
  cases extra with
  | none => exact hbase
  | some ex =>
      by_cases hex : ex.isEmpty
      · simp only [hex, if_pos]
        exact hbase
      · simp only [hex, Bool.false_eq_true, if_false]
        exact pyDictGet_update_isSome ex field _ hbase

theorem list_db_entries_sorted (reg : Registry) :
    (list_db_entries reg).Perm (reg.map Prod.snd)
    ∧ (list_db_entries reg).Pairwise (fun a b => createdAt b ≤ createdAt a) := by
  constructor
  · exact List.mergeSort_perm _ _
  · have h := @List.sorted_mergeSort Entry
      (fun a b => decide (createdAt b ≤ createdAt a))
      (fun a b c hab hbc => by
        simp only [decide_eq_true_eq] at hab hbc ⊢
        exact le_trans hbc hab)
      (fun a b => by
        simp only [Bool.or_eq_true, decide_eq_true_eq]
        exact le_total (createdAt b) (createdAt a))
      (reg.map Prod.snd)
    exact h.imp (fun hab => by simpa using hab)

theorem register_unfold (reg : Registry) (name pd : String)
    (extra : Option (List (String × String))) (uuidHex now : String) :
    (register_db_entry reg name pd extra uuidHex now).1
      = pyDictSet reg ("db_" ++ String.mk (uuidHex.data.take 12))
          (register_db_entry reg name pd extra uuidHex now).2 := rfl

theorem register_preserves_inv (reg : Registry) (name pd : String)
    (extra : Option (List (String × String))) (uuidHex now : String)
    (hinv : registryInv reg = true)
    (hextra : ∀ ex, extra = some ex → ∀ kv ∈ ex, kv.1 ≠ "id")
    (hfresh : regGet reg ("db_" ++ String.mk (uuidHex.data.take 12)) = none) :
    registryInv (register_db_entry reg name pd extra uuidHex now).1 = true := by
  rw [register_unfold, pyDictSet_of_absent _ _ _ hfresh]
  unfold registryInv at hinv ⊢
  rw [Bool.and_eq_true] at hinv
  obtain ⟨hnd, hall⟩ := hinv
  rw [Bool.and_eq_true]
  constructor
  · rw [decide_eq_true_eq] at hnd ⊢
    rw [List.map_append, List.nodup_append]
    refine ⟨hnd, by simp, ?_⟩
    intro a ha hb
    have : a = "db_" ++ String.mk (uuidHex.data.take 12) := by simpa using hb
    subst this
    exact (pyDictGet_eq_none_iff_keys reg _).mp hfresh ha
  · rw [List.all_append, Bool.and_eq_true]
    refine ⟨hall, ?_⟩
    simp only [List.all_cons, List.all_nil, Bool.and_true]
    rw [Bool.and_eq_true, Bool.and_eq_true, Bool.and_eq_true]
    refine ⟨⟨⟨?_, ?_⟩, ?_⟩, ?_⟩
    · rw [register_entry_id name pd extra uuidHex now hextra reg]
      simp
    · exact register_entry_has name pd extra uuidHex now "name" (Or.inl rfl) reg
    · exact register_entry_has name pd extra uuidHex now "persist_dir"
        (Or.inr (Or.inl rfl)) reg
    · exact register_entry_has name pd extra uuidHex now "created_at"
        (Or.inr (Or.inr rfl)) reg

/-- C6 (amended): provided the optional `extra` dict does not override the
`id` field and the minted id is fresh (uuid4 collision-freedom), the
registry operations keep the claimed invariant: `register_db_entry` mints
`"db_"` + the first 12 characters of `uuid4().hex` (12 hex characters by
uuid4's contract), stores exactly one new entry whose `id` equals its key
and which carries `name`, `persist_dir` and `created_at`, and touches no
other key; `delete_db_entry` removes at most the one entry for the given id
and leaves every other entry unchanged; `list_db_entries` returns all
entries sorted by `created_at` descending. -/
theorem c6_registry_props :
    (∀ (reg : Registry) (name pd : String)
        (extra : Option (List (String × String))) (uuidHex now : String),
        registryInv reg = true →
        (∀ ex, extra = some ex → ∀ kv ∈ ex, kv.1 ≠ "id") →
        regGet reg ("db_" ++ String.mk (uuidHex.data.take 12)) = none →
        12 ≤ uuidHex.length →
        (∀ c ∈ uuidHex.data, isHexChar c = true) →
        registryInv (register_db_entry reg name pd extra uuidHex now).1 = true
        ∧ (register_db_entry reg name pd extra uuidHex now).1.length = reg.length + 1
        ∧ regGet (register_db_entry reg name pd extra uuidHex now).1
            ("db_" ++ String.mk (uuidHex.data.take 12))
            = some (register_db_entry reg name pd extra uuidHex now).2
        ∧ (∀ k, k ≠ "db_" ++ String.mk (uuidHex.data.take 12) →
            regGet (register_db_entry reg name pd extra uuidHex now).1 k = regGet reg k)
        ∧ pyDictGet (register_db_entry reg name pd extra uuidHex now).2 "id"
            = some ("db_" ++ String.mk (uuidHex.data.take 12))
        ∧ ("db_" ++ String.mk (uuidHex.data.take 12)).data
            = 'd' :: 'b' :: '_' :: uuidHex.data.take 12
        ∧ (uuidHex.data.take 12).length = 12
        ∧ (∀ c ∈ uuidHex.data.take 12, isHexChar c = true))
    ∧ (∀ (reg : Registry) (db_id : String),
        (regGet reg db_id = none → (delete_db_entry reg db_id).2 = reg)
        ∧ regGet (delete_db_entry reg db_id).2 db_id = none
        ∧ (∀ k, k ≠ db_id →
            regGet (delete_db_entry reg db_id).2 k = regGet reg k)
        ∧ (registryInv reg = true → ∀ e, regGet reg db_id = some e →
            (delete_db_entry reg db_id).2.length + 1 = reg.length))
    ∧ (∀ reg : Registry, (list_db_entries reg).Perm (reg.map Prod.snd)
        ∧ (list_db_entries reg).Pairwise (fun a b => createdAt b ≤ createdAt a)) := by
  refine ⟨?_, ?_, list_db_entries_sorted⟩
  · intro reg name pd extra uuidHex now hinv hextra hfresh hlen hhex
    refine ⟨register_preserves_inv reg name pd extra uuidHex now hinv hextra hfresh,
      ?_, ?_, ?_, register_entry_id name pd extra uuidHex now hextra reg, ?_, ?_, ?_⟩
    · rw [register_unfold, pyDictSet_of_absent _ _ _ hfresh]
      simp
    · have hfresh2 : pyDictGet reg ("db_" ++ String.mk (uuidHex.data.take 12)) = none :=
        hfresh
      rw [register_unfold, pyDictSet_of_absent _ _ _ hfresh]
      show pyDictGet _ _ = _
      rw [pyDictGet_append, hfresh2]
      simp [pyDictGet, List.find?_cons]
    · intro k hk
      rw [register_unfold, pyDictSet_of_absent _ _ _ hfresh]
      show pyDictGet _ _ = _
      rw [pyDictGet_append]
      rw [show pyDictGet [("db_" ++ String.mk (uuidHex.data.take 12),
          (register_db_entry reg name pd extra uuidHex now).2)] k = none from by
        simp [pyDictGet, List.find?_cons, Ne.symm hk]]
      show (pyDictGet reg k).or none = pyDictGet reg k
      cases pyDictGet reg k <;> rfl
    · rfl
    · rw [List.length_take]
      have : uuidHex.data.length = uuidHex.length := rfl
      omega
    · intro c hc
      exact hhex c (List.take_subset 12 uuidHex.data hc)
  · intro reg db_id
    obtain ⟨h1, h2, h3, h4⟩ := delete_db_entry_props reg db_id
    refine ⟨h1, h2, h3, ?_⟩
    intro hinv e he
    apply h4 ?_ e he
    unfold registryInv at hinv
    rw [Bool.and_eq_true] at hinv
    exact (decide_eq_true_eq).mp hinv.1

/-- Witness for C6 at a concrete empty registry, a fresh uuid hex and a
plain `extra` dict. -/
theorem c6_registry_props_witness :
    registryInv ([] : Registry) = true
    ∧ regGet ([] : Registry)
        ("db_" ++ String.mk ("0123456789abcdef0123456789abcdef".data.take 12)) = none
    ∧ registryInv (register_db_entry [] "Ingest x" "databases/chromadb_y"
        (some [("source_html", "page.html")])
        "0123456789abcdef0123456789abcdef" "2025-01-01T00:00:00").1 = true
    ∧ regGet (delete_db_entry ([("db_k", [("id", "db_k"), ("name", "n"),
        ("persist_dir", "p"), ("created_at", "t")])] : Registry) "db_k").2 "db_k"
        = none :=
  ⟨by decide, by decide,
    ((c6_registry_props.1 [] "Ingest x" "databases/chromadb_y"
      (some [("source_html", "page.html")])
      "0123456789abcdef0123456789abcdef" "2025-01-01T00:00:00"
      (by decide) (by decide) (by decide) (by decide) (by decide)).1),
    ((c6_registry_props.2.1 [("db_k", [("id", "db_k"), ("name", "n"),
      ("persist_dir", "p"), ("created_at", "t")])] "db_k").2.1)⟩

/-- C6 (counterexample): `register_db_entry`'s `entry.update(extra)` lets
the caller-supplied `extra` dict overwrite the `id` field, breaking the
claimed invariant that each stored entry's `id` equals its key: starting
from the empty (invariant-satisfying) registry, registering with
`extra = \x7b"id": "evil"\x7d` yields a registry that violates it. -/
theorem c6_registry_counterexample :
    registryInv ([] : Registry) = true
    ∧ registryInv (register_db_entry [] "n" "p" (some [("id", "evil")])
        "0123456789abcdef0123456789abcdef" "2025-01-01T00:00:00").1 = false :=
  ⟨by decide, by decide⟩

/- ### Claim C7: the /query endpoint -/

/-- C7 (amended): /query raises 404 when `db_id` is not registered and 404
when the entry's `persist_dir` is missing on disk; `top_k` defaults to 5
when omitted or falsy; when the vector-store search succeeds it returns one
rendered string per result — at most `top_k` when the store honours `k` —
each prefixed with `[source] ` exactly when the chunk carries truthy source
metadata; and — the correction — when recreating the store or searching
raises, it responds HTTP 500 instead of returning results. -/
theorem c7_query_database_props (reg : Registry) (dirExists : String → Bool)
    (search : String → String → Int → Except String (List PyDoc))
    (db_id query : String) (top_k : Option Int) :
    (regGet reg db_id = none →
      query_database reg dirExists search db_id query top_k
        = .error (.http 404 "DB not found"))
    ∧ (∀ entry pd, regGet reg db_id = some entry → entry ≠ [] →
        pyDictGet entry "persist_dir" = some pd → dirExists pd = false →
        query_database reg dirExists search db_id query top_k
          = .error (.http 404 "DB persist directory not found on disk"))
    ∧ (∀ entry pd e, regGet reg db_id = some entry → entry ≠ [] →
        pyDictGet entry "persist_dir" = some pd → dirExists pd = true →
        search pd query (effTopK top_k) = .error e →
        query_database reg dirExists search db_id query top_k
          = .error (.http 500 e))
    ∧ (∀ entry pd docs, regGet reg db_id = some entry → entry ≠ [] →
        pyDictGet entry "persist_dir" = some pd → dirExists pd = true →
        search pd query (effTopK top_k) = .ok docs →
        query_database reg dirExists search db_id query top_k
          = .ok (docs.map renderResult)
        ∧ (docs.map renderResult).length = docs.length
        ∧ ∀ r ∈ docs,
            (strTruthy (docSource r) = true →
              renderResult r = "[" ++ (docSource r).getD "" ++ "] " ++ docText r)
            ∧ (strTruthy (docSource r) = false → renderResult r = docText r))
    ∧ effTopK none = 5 ∧ effTopK (some 0) = 5 := by
  refine ⟨?_, ?_, ?_, ?_, rfl, rfl⟩
  · intro h
    unfold query_database
    rw [h]
  · intro entry pd hget hne hpd hdir
    have hemp : entry.isEmpty = false := by
      cases h : entry.isEmpty
      · rfl
      · exact absurd (List.isEmpty_iff.mp h) hne
    unfold query_database
    simp only [hget, hemp, hpd, hdir, Bool.false_eq_true, if_false]
  · intro entry pd e hget hne hpd hdir hsearch
    have hemp : entry.isEmpty = false := by
      cases h : entry.isEmpty
      · rfl
      · exact absurd (List.isEmpty_iff.mp h) hne
    unfold query_database
    simp only [hget, hemp, hpd, hdir, hsearch, Bool.false_eq_true, if_false, if_true]
  · intro entry pd docs hget hne hpd hdir hsearch
    refine ⟨?_, by simp, ?_⟩
    · have hemp : entry.isEmpty = false := by
        cases h : entry.isEmpty
        · rfl
        · exact absurd (List.isEmpty_iff.mp h) hne
      unfold query_database
      simp only [hget, hemp, hpd, hdir, hsearch, Bool.false_eq_true, if_false, if_true]
    · intro r _
      constructor
      · intro ht
        unfold renderResult
        rw [if_pos ht]
      · intro ht
        unfold renderResult
        rw [if_neg (by simp [ht])]

/-- Witness for C7 at a concrete registry, an existing folder and a search
oracle returning two chunks, one with source metadata and one without. -/
theorem c7_query_database_props_witness :
    regGet [("db_1", [("id", "db_1"), ("name", "n"), ("persist_dir", "d"),
        ("created_at", "t")])] "db_1"
      = some [("id", "db_1"), ("name", "n"), ("persist_dir", "d"), ("created_at", "t")]
    ∧ query_database
        [("db_1", [("id", "db_1"), ("name", "n"), ("persist_dir", "d"),
          ("created_at", "t")])]
        (fun _ => true)
        (fun _ _ _ => .ok [⟨some "chunk one", none, "doc", some [("source", "kb.txt")]⟩,
          ⟨some "chunk two", none, "doc", none⟩])
        "db_1" "q" none
      = .ok ["[kb.txt] chunk one", "chunk two"] :=
  ⟨by rfl, by
    have h := ((c7_query_database_props
      [("db_1", [("id", "db_1"), ("name", "n"), ("persist_dir", "d"),
        ("created_at", "t")])]
      (fun _ => true)
      (fun _ _ _ => .ok [⟨some "chunk one", none, "doc", some [("source", "kb.txt")]⟩,
        ⟨some "chunk two", none, "doc", none⟩])
      "db_1" "q" none).2.2.2.1
      [("id", "db_1"), ("name", "n"), ("persist_dir", "d"), ("created_at", "t")] "d"
      [⟨some "chunk one", none, "doc", some [("source", "kb.txt")]⟩,
        ⟨some "chunk two", none, "doc", none⟩]
      (by rfl) (by decide) (by rfl) (by rfl) (by rfl)).1
    rw [h]
    rfl⟩

/-- C7 (counterexample): with the database registered and its folder on
disk, a raising vector-store search makes /query respond HTTP 500 — the
endpoint can fail although the database is available, so it does not fail
exactly when the database is unavailable, and the "otherwise returns at
most top_k results" clause is wrong as frozen. -/
theorem c7_query_database_counterexample :
    query_database
      [("db_1", [("id", "db_1"), ("name", "n"), ("persist_dir", "d"),
        ("created_at", "t")])]
      (fun _ => true) (fun _ _ _ => .error "chroma search failed")
      "db_1" "q" none
      = .error (.http 500 "chroma search failed") := by rfl

/- ### Claim C8: DELETE /databases/{db_id} is atomic w.r.t. the registry -/

/-- C8: the delete endpoint raises 404 and changes nothing when `db_id` is
not registered; when the folder exists and `shutil.rmtree` fails it raises
HTTP 500 with registry and disk untouched (the entry is removed only after
the folder deletion step); and on success — whether or not the folder was
present on disk — the folder is gone, the registry entry is gone, and
nothing else changed. -/
theorem c8_delete_database_props (reg : Registry) (dirs : List String)
    (rmtreeFails : Bool) (db_id : String) :
    (regGet reg db_id = none →
      delete_database reg dirs rmtreeFails db_id
        = (.error (.http 404 "DB not found"), reg, dirs))
    ∧ (∀ entry pd, regGet reg db_id = some entry → entry ≠ [] →
        pyDictGet entry "persist_dir" = some pd → pd ∈ dirs →
        rmtreeFails = true →
        delete_database reg dirs rmtreeFails db_id
          = (.error (.http 500 "Failed to delete DB folder"), reg, dirs))
    ∧ (∀ entry pd, regGet reg db_id = some entry → entry ≠ [] →
        pyDictGet entry "persist_dir" = some pd →
        (pd ∈ dirs → rmtreeFails = false) →
        (delete_database reg dirs rmtreeFails db_id).1
          = .ok ("Deleted DB " ++ db_id ++ " and folder " ++ pd)
        ∧ pd ∉ (delete_database reg dirs rmtreeFails db_id).2.2
        ∧ regGet (delete_database reg dirs rmtreeFails db_id).2.1 db_id = none
        ∧ (∀ k, k ≠ db_id →
            regGet (delete_database reg dirs rmtreeFails db_id).2.1 k = regGet reg k)
        ∧ (∀ d, d ≠ pd →
            (d ∈ (delete_database reg dirs rmtreeFails db_id).2.2 ↔ d ∈ dirs))) := by
  refine ⟨?_, ?_, ?_⟩
  · intro h
    unfold delete_database
    rw [h]
  · intro entry pd hget hne hpd hmem hfail
    have hemp : entry.isEmpty = false := by
      cases h : entry.isEmpty
      · rfl
      · exact absurd (List.isEmpty_iff.mp h) hne
    have hc : dirs.contains pd = true := List.elem_eq_true_of_mem hmem
    unfold delete_database
    simp only [hget, hemp, hpd, hc, hfail, Bool.false_eq_true, if_false, if_true]
  · intro entry pd hget hne hpd hfail
    have hemp : entry.isEmpty = false := by
      cases h : entry.isEmpty
      · rfl
      · exact absurd (List.isEmpty_iff.mp h) hne
    have hdel := delete_db_entry_props reg db_id
    by_cases hmem : pd ∈ dirs
    · have hc : dirs.contains pd = true := List.elem_eq_true_of_mem hmem
      have hres : delete_database reg dirs rmtreeFails db_id
          = (.ok ("Deleted DB " ++ db_id ++ " and folder " ++ pd),
            (delete_db_entry reg db_id).2,
            dirs.filter (fun d => d ≠ pd)) := by
        unfold delete_database
        simp only [hget, hemp, hpd, hc, hfail hmem, Bool.false_eq_true, if_false, if_true]
      rw [hres]
      refine ⟨rfl, by simp, hdel.2.1, fun k hk => hdel.2.2.1 k hk, ?_⟩
      intro d hd
      simp [List.mem_filter, hd]
    · have hc : dirs.contains pd = false := by
        cases h : dirs.contains pd
        · rfl
        · exact absurd (List.elem_iff.mp h) hmem
      have hres : delete_database reg dirs rmtreeFails db_id
          = (.ok ("Deleted DB " ++ db_id ++ " and folder " ++ pd),
            (delete_db_entry reg db_id).2, dirs) := by
        unfold delete_database
        simp only [hget, hemp, hpd, hc, Bool.false_eq_true, if_false]
      rw [hres]
      exact ⟨rfl, hmem, hdel.2.1, fun k hk => hdel.2.2.1 k hk, fun d _ => Iff.rfl⟩

/-- Witness for C8: a registered database whose folder exists, with a
failing and a succeeding rmtree. -/
theorem c8_delete_database_props_witness :
    delete_database
        [("db_1", [("id", "db_1"), ("name", "n"), ("persist_dir", "d"),
          ("created_at", "t")])] ["d", "other"] true "db_1"
      = (.error (.http 500 "Failed to delete DB folder"),
          [("db_1", [("id", "db_1"), ("name", "n"), ("persist_dir", "d"),
            ("created_at", "t")])], ["d", "other"])
    ∧ regGet (delete_database
        [("db_1", [("id", "db_1"), ("name", "n"), ("persist_dir", "d"),
          ("created_at", "t")])] ["d", "other"] false "db_1").2.1 "db_1" = none
    ∧ "d" ∉ (delete_database
        [("db_1", [("id", "db_1"), ("name", "n"), ("persist_dir", "d"),
          ("created_at", "t")])] ["d", "other"] false "db_1").2.2 :=
  ⟨(c8_delete_database_props
      [("db_1", [("id", "db_1"), ("name", "n"), ("persist_dir", "d"),
        ("created_at", "t")])] ["d", "other"] true "db_1").2.1
      [("id", "db_1"), ("name", "n"), ("persist_dir", "d"), ("created_at", "t")] "d"
      (by rfl) (by decide) (by rfl) (by decide) rfl,
   ((c8_delete_database_props
      [("db_1", [("id", "db_1"), ("name", "n"), ("persist_dir", "d"),
        ("created_at", "t")])] ["d", "other"] false "db_1").2.2
      [("id", "db_1"), ("name", "n"), ("persist_dir", "d"), ("created_at", "t")] "d"
      (by rfl) (by decide) (by rfl) (fun _ => rfl)).2.2.1,
   ((c8_delete_database_props
      [("db_1", [("id", "db_1"), ("name", "n"), ("persist_dir", "d"),
        ("created_at", "t")])] ["d", "other"] false "db_1").2.2
      [("id", "db_1"), ("name", "n"), ("persist_dir", "d"), ("created_at", "t")] "d"
      (by rfl) (by decide) (by rfl) (fun _ => rfl)).2.1⟩
